import Mathlib

/-!
Verification of the go-iecp5 IEC 60870-5 core: a shallow embedding of the
ASDU codec (package asdu), the CS-104 APCI framing (package cs104) and the
CS-104 configuration validation, together with theorems settling the
specification claims about them.

Machine integers are modelled as `Nat` (with explicit `% 2^w` where Go
wraps) and `Int` where Go uses signed integers.  Fallible Go functions
return `Except` / `Option`; a Go `panic` is `Option.none`.  The `Connect`
collaborator is modelled by passing its `Params` explicitly and by letting
each builder return the ASDU it hands to `Connect.Send` (`Except.ok u`
means `c.Send(u)` was reached with exactly `u`).
-/

namespace Iecp5

/-- The error kinds of the asdu package (errors.go is summarised by the
spec's error taxonomy; only the kinds reachable from the embedded code
appear). -/
inductive Error where
  | TypeIdentifier
  | CmdCause
  | NotAnyObjInfo
  | LengthOutOfRange
  | InfoObjAddrFit
  | TypeIDNotMatch
  | Param
  deriving DecidableEq, Repr

instance {ε α : Type} [DecidableEq ε] [DecidableEq α] :
    DecidableEq (Except ε α) := fun a b =>
  match a, b with
  | .error e, .error f =>
      if h : e = f then .isTrue (congrArg _ h)
      else .isFalse (fun hh => h (Except.error.inj hh))
  | .ok x, .ok y =>
      if h : x = y then .isTrue (congrArg _ h)
      else .isFalse (fun hh => h (Except.ok.inj hh))
  | .error _, .ok _ => .isFalse (fun hh => Except.noConfusion hh)
  | .ok _, .error _ => .isFalse (fun hh => Except.noConfusion hh)

/-! ### TypeID (asdu/identifier.go) -/

/-- ASDU type identification, an 8-bit code. -/
abbrev TypeID := Nat

def M_SP_NA_1 : TypeID := 1
def M_SP_TA_1 : TypeID := 2
def M_DP_NA_1 : TypeID := 3
def M_DP_TA_1 : TypeID := 4
def M_ST_NA_1 : TypeID := 5
def M_ST_TA_1 : TypeID := 6
def M_BO_NA_1 : TypeID := 7
def M_BO_TA_1 : TypeID := 8
def M_ME_NA_1 : TypeID := 9
def M_ME_TA_1 : TypeID := 10
def M_ME_NB_1 : TypeID := 11
def M_ME_TB_1 : TypeID := 12
def M_ME_NC_1 : TypeID := 13
def M_ME_TC_1 : TypeID := 14
def M_IT_NA_1 : TypeID := 15
def M_IT_TA_1 : TypeID := 16
def M_EP_TA_1 : TypeID := 17
def M_EP_TB_1 : TypeID := 18
def M_EP_TC_1 : TypeID := 19
def M_PS_NA_1 : TypeID := 20
def M_ME_ND_1 : TypeID := 21
def M_SP_TB_1 : TypeID := 30
def M_DP_TB_1 : TypeID := 31
def M_ST_TB_1 : TypeID := 32
def M_BO_TB_1 : TypeID := 33
def M_ME_TD_1 : TypeID := 34
def M_ME_TE_1 : TypeID := 35
def M_ME_TF_1 : TypeID := 36
def M_IT_TB_1 : TypeID := 37
def M_EP_TD_1 : TypeID := 38
def M_EP_TE_1 : TypeID := 39
def M_EP_TF_1 : TypeID := 40
def S_IT_TC_1 : TypeID := 41
def C_SC_NA_1 : TypeID := 45
def C_DC_NA_1 : TypeID := 46
def C_RC_NA_1 : TypeID := 47
def C_SE_NA_1 : TypeID := 48
def C_SE_NB_1 : TypeID := 49
def C_SE_NC_1 : TypeID := 50
def C_BO_NA_1 : TypeID := 51
def C_SC_TA_1 : TypeID := 58
def C_DC_TA_1 : TypeID := 59
def C_RC_TA_1 : TypeID := 60
def C_SE_TA_1 : TypeID := 61
def C_SE_TB_1 : TypeID := 62
def C_SE_TC_1 : TypeID := 63
def C_BO_TA_1 : TypeID := 64
def M_EI_NA_1 : TypeID := 70
def C_IC_NA_1 : TypeID := 100
def C_CI_NA_1 : TypeID := 101
def C_RD_NA_1 : TypeID := 102
def C_CS_NA_1 : TypeID := 103
def C_TS_NA_1 : TypeID := 104
def C_RP_NA_1 : TypeID := 105
def C_CD_NA_1 : TypeID := 106
def C_TS_TA_1 : TypeID := 107
def P_ME_NA_1 : TypeID := 110
def P_ME_NB_1 : TypeID := 111
def P_ME_NC_1 : TypeID := 112
def P_AC_NA_1 : TypeID := 113
def F_FR_NA_1 : TypeID := 120
def F_SR_NA_1 : TypeID := 121
def F_SC_NA_1 : TypeID := 122
def F_LS_NA_1 : TypeID := 123
def F_AF_NA_1 : TypeID := 124
def F_SG_NA_1 : TypeID := 125
def F_DR_TA_1 : TypeID := 126
def F_SC_NB_1 : TypeID := 127

/-- The `infoObjSize` map of asdu/identifier.go: per-type serial octet
size, absent keys meaning unsupported. -/
def infoObjSize (id : TypeID) : Option Nat :=
  if id = M_SP_NA_1 then some 1
  else if id = M_SP_TA_1 then some 4
  else if id = M_DP_NA_1 then some 1
  else if id = M_DP_TA_1 then some 4
  else if id = M_ST_NA_1 then some 2
  else if id = M_ST_TA_1 then some 5
  else if id = M_BO_NA_1 then some 5
  else if id = M_BO_TA_1 then some 8
  else if id = M_ME_NA_1 then some 3
  else if id = M_ME_TA_1 then some 6
  else if id = M_ME_NB_1 then some 3
  else if id = M_ME_TB_1 then some 6
  else if id = M_ME_NC_1 then some 5
  else if id = M_ME_TC_1 then some 8
  else if id = M_IT_NA_1 then some 5
  else if id = M_IT_TA_1 then some 8
  else if id = M_EP_TA_1 then some 6
  else if id = M_EP_TB_1 then some 7
  else if id = M_EP_TC_1 then some 7
  else if id = M_PS_NA_1 then some 5
  else if id = M_ME_ND_1 then some 2
  else if id = M_SP_TB_1 then some 8
  else if id = M_DP_TB_1 then some 8
  else if id = M_ST_TB_1 then some 9
  else if id = M_BO_TB_1 then some 12
  else if id = M_ME_TD_1 then some 10
  else if id = M_ME_TE_1 then some 10
  else if id = M_ME_TF_1 then some 12
  else if id = M_IT_TB_1 then some 12
  else if id = M_EP_TD_1 then some 11
  else if id = M_EP_TE_1 then some 11
  else if id = M_EP_TF_1 then some 11
  else if id = C_SC_NA_1 then some 1
  else if id = C_DC_NA_1 then some 1
  else if id = C_RC_NA_1 then some 1
  else if id = C_SE_NA_1 then some 3
  else if id = C_SE_NB_1 then some 3
  else if id = C_SE_TC_1 then some 3
  else if id = C_SE_NC_1 then some 5
  else if id = C_BO_NA_1 then some 4
  else if id = M_EI_NA_1 then some 1
  else if id = C_IC_NA_1 then some 1
  else if id = C_CI_NA_1 then some 1
  else if id = C_RD_NA_1 then some 0
  else if id = C_CS_NA_1 then some 7
  else if id = C_TS_NA_1 then some 2
  else if id = C_RP_NA_1 then some 1
  else if id = C_CD_NA_1 then some 2
  else if id = P_ME_NA_1 then some 3
  else if id = P_ME_NB_1 then some 3
  else if id = P_ME_NC_1 then some 5
  else if id = P_AC_NA_1 then some 1
  else if id = F_FR_NA_1 then some 6
  else if id = F_SR_NA_1 then some 7
  else if id = F_SC_NA_1 then some 4
  else if id = F_LS_NA_1 then some 5
  else if id = F_AF_NA_1 then some 4
  else if id = F_DR_TA_1 then some 13
  else none

/-- GetInfoObjSize of asdu/identifier.go. -/
def GetInfoObjSize (id : TypeID) : Except Error Nat :=
  match infoObjSize id with
  | some n => .ok n
  | none => .error .TypeIdentifier

/-! ### Causes of transmission (asdu/identifier.go) -/

abbrev Cause := Nat

def Unused : Cause := 0
def Periodic : Cause := 1
def Background : Cause := 2
def Spontaneous : Cause := 3
def Initialized : Cause := 4
def Request : Cause := 5
def Activation : Cause := 6
def ActivationCon : Cause := 7
def Deactivation : Cause := 8
def DeactivationCon : Cause := 9
def ActivationTerm : Cause := 10
def ReturnInfoRemote : Cause := 11
def ReturnInfoLocal : Cause := 12
def InterrogatedByStation : Cause := 20
def InterrogatedByGroup16 : Cause := 36
def RequestByGeneralCounter : Cause := 37
def RequestByGroup4Counter : Cause := 41

/-- Cause of transmission: 6-bit cause plus the P/N and test flags. -/
structure CauseOfTransmission where
  IsTest : Bool
  IsNegative : Bool
  Cause : Cause
  deriving DecidableEq, Repr

/-- VariableStruct: object count (7 bit) plus the sequence flag. -/
structure VariableStruct where
  Number : Nat
  IsSequence : Bool
  deriving DecidableEq, Repr

/-- ParseVariableStruct of asdu/identifier.go. -/
def ParseVariableStruct (b : Nat) : VariableStruct :=
  { Number := b &&& 0x7f, IsSequence := b &&& 0x80 = 0x80 }

/-- VariableStruct.Value of asdu/identifier.go. -/
def VariableStruct.Value (sf : VariableStruct) : Nat :=
  if sf.IsSequence then sf.Number ||| 0x80 else sf.Number

/-! ### StepPosition (asdu/information.go) -/

/-- StepPosition: 7-bit signed value with a transient bit.  `Val` is a Go
`int` (64-bit two's complement); over the claims' domain no wrap occurs,
so `Int` is faithful. -/
structure StepPosition where
  Val : Int
  HasTransient : Bool
  deriving DecidableEq, Repr

/-- StepPosition.Value of asdu/information.go: `p := sf.Val & 0x7f` keeps
the low 7 bits of the two's-complement value, i.e. `Val.emod 128`; the
transient flag sets bit 7. -/
def StepPosition.Value (sf : StepPosition) : Nat :=
  let p : Nat := (sf.Val.emod 128).toNat
  if sf.HasTransient then p ||| 0x80 else p

/-- ParseStepPosition of asdu/information.go: bit 7 is the transient flag;
`int(b) | (-1 &^ 0x3f)` forces every two's-complement bit above bit 5 to
one (bit 6 of `b` is already set in this branch), which is the integer
`(b &&& 0x3f) - 64`. -/
def ParseStepPosition (b : Nat) : StepPosition :=
  { HasTransient := b &&& 0x80 ≠ 0
    Val := if b &&& 0x40 = 0 then ((b &&& 0x3f : Nat) : Int)
           else ((b &&& 0x3f : Nat) : Int) - 64 }

/-! ### Params and the ASDU container.

The concrete `Params`, `ASDU`, `NewASDU` and `SetVariableNumber`
declarations live in asdu/asdu.go, which is not among the provided source
files; they are modelled from the spec (sections 3, 4.2, 4.3) and kept to
exactly what their call sites in the provided sources rely on. -/

/-- Modelled from the spec: ASDUSizeMax = 249 octets (spec section 3; also
fixed by cs104 `APDUSizeMax = 255 = start + length + 4 control octets +
ASDUSizeMax`). The asdu/asdu.go constant is not among the sources. -/
def ASDUSizeMax : Nat := 249

/-- Modelled from the spec: transport-level sizing parameters (spec
section 3, Params).  The session time zone only feeds the time encoders,
which are themselves modelled below, so it is omitted. -/
structure Params where
  CauseSize : Nat
  CommonAddrSize : Nat
  InfoObjAddrSize : Nat
  deriving DecidableEq, Repr

/-- Modelled from the spec: Params.Valid checks that the configured widths
are legal (cause width 1 or 2, common-address width 1 or 2,
info-object-address width 1, 2 or 3); asdu/asdu.go is not among the
sources. -/
def Params.Valid (p : Params) : Except Error Unit :=
  if (p.CauseSize = 1 ∨ p.CauseSize = 2) ∧
     (p.CommonAddrSize = 1 ∨ p.CommonAddrSize = 2) ∧
     (p.InfoObjAddrSize = 1 ∨ p.InfoObjAddrSize = 2 ∨ p.InfoObjAddrSize = 3)
  then .ok () else .error .Param

/-- IdentifierSize = 2 + cause width + common-address width (spec
section 4.2: TypeID + VSQ + COT + CA). -/
def Params.IdentifierSize (p : Params) : Nat :=
  2 + p.CauseSize + p.CommonAddrSize

/-- The data-unit identifier (TypeID, VSQ, COT, originator address,
common address). -/
structure Identifier where
  Ty : TypeID
  Variable : VariableStruct
  Coa : CauseOfTransmission
  OrigAddr : Nat
  CommonAddr : Nat
  deriving DecidableEq, Repr

/-- Modelled from the spec: the in-memory ASDU container (spec section 3)
holding the decoding parameters, the identifier and the info-object
payload bytes; asdu/asdu.go is not among the sources.  Payload bytes are
`Nat` values below 256. -/
structure ASDU where
  params : Params
  ident : Identifier
  infoObj : List Nat
  deriving DecidableEq, Repr

/-- Modelled from the spec: NewASDU builds an ASDU with an empty payload;
asdu/asdu.go is not among the sources. -/
def NewASDU (p : Params) (ident : Identifier) : ASDU :=
  { params := p, ident := ident, infoObj := [] }

/-- Modelled from the spec: `SetVariableNumber(n)` validates `n ≤ 127` and
that the resulting length is at most `ASDUSizeMax`, returning
`LengthOutOfRange` otherwise (spec section 4.3); asdu/asdu.go is not among
the sources. -/
def ASDU.SetVariableNumber (u : ASDU) (n : Nat) : Except Error ASDU :=
  if n > 127 then .error .LengthOutOfRange
  else if u.params.IdentifierSize + u.infoObj.length > ASDUSizeMax then
    .error .LengthOutOfRange
  else .ok { u with ident := { u.ident with
               Variable := { u.ident.Variable with Number := n } } }

/-- ASDU.AppendBytes of asdu (payload append). -/
def ASDU.AppendBytes (u : ASDU) (b : List Nat) : ASDU :=
  { u with infoObj := u.infoObj ++ b }

/-- Little-endian byte encoding of an information-object address at the
given width (the append cases of ASDU.AppendInfoObjAddr). -/
def ioaBytes (size addr : Nat) : List Nat :=
  match size with
  | 1 => [addr % 256]
  | 2 => [addr % 256, (addr / 256) % 256]
  | _ => [addr % 256, (addr / 256) % 256, (addr / 65536) % 256]

/-- ASDU.AppendInfoObjAddr: switch on the configured width, range-check
the address and append it little-endian. -/
def ASDU.AppendInfoObjAddr (u : ASDU) (addr : Nat) : Except Error ASDU :=
  if u.params.InfoObjAddrSize = 1 then
    if addr > 255 then .error .InfoObjAddrFit
    else .ok (u.AppendBytes (ioaBytes 1 addr))
  else if u.params.InfoObjAddrSize = 2 then
    if addr > 65535 then .error .InfoObjAddrFit
    else .ok (u.AppendBytes (ioaBytes 2 addr))
  else if u.params.InfoObjAddrSize = 3 then
    if addr > 16777215 then .error .InfoObjAddrFit
    else .ok (u.AppendBytes (ioaBytes 3 addr))
  else .error .Param

/-- ASDU.AppendCP16Time2a: raw little-endian milliseconds, two octets
(spec section 4.1; the asdu time encoder file is not among the sources). -/
def ASDU.AppendCP16Time2a (u : ASDU) (msec : Nat) : ASDU :=
  u.AppendBytes [msec % 256, (msec / 256) % 256]

/-! ### Time tags.

CP24Time2a/CP56Time2a encoders over Go `time.Time` live in asdu/time.go,
which is not among the provided sources.  They are modelled from the spec
(section 4.1) over a broken-down local-time value. -/

/-- Modelled from the spec: a local-time instant already broken down into
the fields the CP56Time2a layout stores (spec section 4.1); Go `time.Time`
plus the session zone is abstracted to this record. -/
structure Tm where
  Msec : Nat
  Minute : Nat
  Invalid : Bool
  Hour : Nat
  Summer : Bool
  Day : Nat
  Dow : Nat
  Month : Nat
  Year : Nat
  deriving DecidableEq, Repr

/-- Modelled from the spec: the 7-octet CP56Time2a layout `ms_lo, ms_hi,
{min,IV}, {hour,SU}, {day,dow}, {month}, {year}` (spec section 4.1). -/
def CP56Time2a (t : Tm) : List Nat :=
  [t.Msec % 256, (t.Msec / 256) % 256,
   (t.Minute % 64) + (if t.Invalid then 128 else 0),
   (t.Hour % 32) + (if t.Summer then 128 else 0),
   (t.Day % 32) + (t.Dow % 8) * 32,
   t.Month % 16,
   t.Year % 128]

/-- Modelled from the spec: CP24 is CP56 truncated to `{ms, min}`
(3 octets, spec section 4.1). -/
def CP24Time2a (t : Tm) : List Nat := (CP56Time2a t).take 3

/-- checkValid of asdu/identifier.go (the monitor-direction size check):
reject empty info lists, unknown TypeIDs, invalid params and ASDUs whose
computed length exceeds ASDUSizeMax. -/
def checkValid (p : Params) (typeID : TypeID) (isSequence : Bool)
    (infosLen : Nat) : Except Error Unit :=
  if infosLen = 0 then .error .NotAnyObjInfo
  else match GetInfoObjSize typeID with
  | .error e => .error e
  | .ok objSize =>
    match p.Valid with
    | .error e => .error e
    | .ok _ =>
      let asduLen :=
        if isSequence then
          p.IdentifierSize + infosLen * objSize + p.InfoObjAddrSize
        else p.IdentifierSize + infosLen * (objSize + p.InfoObjAddrSize)
      if asduLen > ASDUSizeMax then .error .LengthOutOfRange
      else .ok ()

/-! ### Monitor-direction builders: single points (asdu/identifier.go) -/

/-- The information-object address zero, "irrelevant". -/
def InfoObjAddrIrrelevant : Nat := 0

/-- SinglePointInfo of asdu/identifier.go (`Time` is the broken-down
local time handed to the CP24/CP56 encoders). -/
structure SinglePointInfo where
  Ioa : Nat
  Value : Bool
  Qds : Nat
  Time : Tm
  deriving DecidableEq, Repr

/-- The per-object loop of `single`: append the IOA on the first pass (or
always when not in sequence mode), then the value/quality octet, then the
time tag selected by the TypeID.  The `once` flag is `true` from the
second iteration on, as in the Go loop. -/
def singleLoop (typeID : TypeID) (isSequence : Bool) :
    List SinglePointInfo → Bool → ASDU → Except Error ASDU
  | [], _, u => .ok u
  | v :: rest, once, u =>
    match (if ¬isSequence ∨ ¬once then u.AppendInfoObjAddr v.Ioa
           else .ok u) with
    | .error e => .error e
    | .ok u =>
      let value : Nat := if v.Value then 1 else 0
      let u := u.AppendBytes [value ||| (v.Qds &&& 0xf0)]
      match (if typeID = M_SP_NA_1 then Except.ok u
             else if typeID = M_SP_TA_1 then
               .ok (u.AppendBytes (CP24Time2a v.Time))
             else if typeID = M_SP_TB_1 then
               .ok (u.AppendBytes (CP56Time2a v.Time))
             else .error Error.TypeIDNotMatch) with
      | .error e => .error e
      | .ok u => singleLoop typeID isSequence rest true u

/-- single of asdu/identifier.go: shared builder for [M_SP_NA_1],
[M_SP_TA_1] and [M_SP_TB_1]; the returned ASDU is what reaches
`Connect.Send`. -/
def single (p : Params) (typeID : TypeID) (isSequence : Bool)
    (coa : CauseOfTransmission) (ca : Nat) (infos : List SinglePointInfo) :
    Except Error ASDU :=
  match checkValid p typeID isSequence infos.length with
  | .error e => .error e
  | .ok _ =>
    match (NewASDU p ⟨typeID, ⟨0, isSequence⟩, coa, 0,
        ca⟩).SetVariableNumber infos.length with
    | .error e => .error e
    | .ok u => singleLoop typeID isSequence infos false u

/-- Single of asdu/identifier.go: [M_SP_NA_1] with its admitted causes. -/
def Single (p : Params) (isSequence : Bool) (coa : CauseOfTransmission)
    (ca : Nat) (infos : List SinglePointInfo) : Except Error ASDU :=
  if ¬(coa.Cause = Background ∨ coa.Cause = Spontaneous ∨ coa.Cause = Request ∨
       coa.Cause = ReturnInfoRemote ∨ coa.Cause = ReturnInfoLocal ∨
       (InterrogatedByStation ≤ coa.Cause ∧ coa.Cause ≤ InterrogatedByGroup16)) then
    .error .CmdCause
  else single p M_SP_NA_1 isSequence coa ca infos

/-- SingleCP24Time2a of asdu/identifier.go: [M_SP_TA_1]. -/
def SingleCP24Time2a (p : Params) (coa : CauseOfTransmission) (ca : Nat)
    (infos : List SinglePointInfo) : Except Error ASDU :=
  if ¬(coa.Cause = Spontaneous ∨ coa.Cause = Request ∨
       coa.Cause = ReturnInfoRemote ∨ coa.Cause = ReturnInfoLocal) then
    .error .CmdCause
  else single p M_SP_TA_1 false coa ca infos

/-- SingleCP56Time2a of asdu/identifier.go: [M_SP_TB_1]. -/
def SingleCP56Time2a (p : Params) (coa : CauseOfTransmission) (ca : Nat)
    (infos : List SinglePointInfo) : Except Error ASDU :=
  if ¬(coa.Cause = Spontaneous ∨ coa.Cause = Request ∨
       coa.Cause = ReturnInfoRemote ∨ coa.Cause = ReturnInfoLocal) then
    .error .CmdCause
  else single p M_SP_TB_1 false coa ca infos

/-! ### Monitor-direction builders: step positions (asdu/identifier.go) -/

/-- StepPositionInfo of asdu/identifier.go. -/
structure StepPositionInfo where
  Ioa : Nat
  Value : StepPosition
  Qds : Nat
  Time : Tm
  deriving DecidableEq, Repr

/-- The per-object loop of `step`.  NOTE (faithful to the source): the
CP56 case of the switch matches `M_SP_TB_1`, not `M_ST_TB_1`. -/
def stepLoop (typeID : TypeID) (isSequence : Bool) :
    List StepPositionInfo → Bool → ASDU → Except Error ASDU
  | [], _, u => .ok u
  | v :: rest, once, u =>
    match (if ¬isSequence ∨ ¬once then u.AppendInfoObjAddr v.Ioa
           else .ok u) with
    | .error e => .error e
    | .ok u =>
      let u := u.AppendBytes [v.Value.Value, v.Qds]
      match (if typeID = M_ST_NA_1 then Except.ok u
             else if typeID = M_ST_TA_1 then
               .ok (u.AppendBytes (CP24Time2a v.Time))
             else if typeID = M_SP_TB_1 then
               .ok (u.AppendBytes (CP56Time2a v.Time))
             else .error Error.TypeIDNotMatch) with
      | .error e => .error e
      | .ok u => stepLoop typeID isSequence rest true u

/-- step of asdu/identifier.go: shared builder for the step-position
types. -/
def step (p : Params) (typeID : TypeID) (isSequence : Bool)
    (coa : CauseOfTransmission) (ca : Nat) (infos : List StepPositionInfo) :
    Except Error ASDU :=
  match checkValid p typeID isSequence infos.length with
  | .error e => .error e
  | .ok _ =>
    match (NewASDU p ⟨typeID, ⟨0, isSequence⟩, coa, 0,
        ca⟩).SetVariableNumber infos.length with
    | .error e => .error e
    | .ok u => stepLoop typeID isSequence infos false u

/-- Step of asdu/identifier.go: [M_ST_NA_1]. -/
def Step (p : Params) (isSequence : Bool) (coa : CauseOfTransmission)
    (ca : Nat) (infos : List StepPositionInfo) : Except Error ASDU :=
  if ¬(coa.Cause = Background ∨ coa.Cause = Spontaneous ∨ coa.Cause = Request ∨
       coa.Cause = ReturnInfoRemote ∨ coa.Cause = ReturnInfoLocal ∨
       (InterrogatedByStation ≤ coa.Cause ∧ coa.Cause ≤ InterrogatedByGroup16)) then
    .error .CmdCause
  else step p M_ST_NA_1 isSequence coa ca infos

/-- StepCP24Time2a of asdu/identifier.go: [M_ST_TA_1]. -/
def StepCP24Time2a (p : Params) (coa : CauseOfTransmission) (ca : Nat)
    (infos : List StepPositionInfo) : Except Error ASDU :=
  if ¬(coa.Cause = Spontaneous ∨ coa.Cause = Request ∨
       coa.Cause = ReturnInfoRemote ∨ coa.Cause = ReturnInfoLocal) then
    .error .CmdCause
  else step p M_ST_TA_1 false coa ca infos

/-- StepCP56Time2a of asdu/identifier.go.  NOTE (faithful to the source):
it hands `M_SP_TB_1` to `step`, although its own documentation says it
sends [M_ST_TB_1]. -/
def StepCP56Time2a (p : Params) (coa : CauseOfTransmission) (ca : Nat)
    (infos : List StepPositionInfo) : Except Error ASDU :=
  if ¬(coa.Cause = Spontaneous ∨ coa.Cause = Request ∨
       coa.Cause = ReturnInfoRemote ∨ coa.Cause = ReturnInfoLocal) then
    .error .CmdCause
  else step p M_SP_TB_1 false coa ca infos

/-! ### Control-direction single command (part_001) -/

/-- QualifierOfCommand of asdu/information.go. -/
structure QualifierOfCommand where
  Qual : Nat
  InSelect : Bool
  deriving DecidableEq, Repr

/-- QualifierOfCommand.Value of asdu/information.go. -/
def QualifierOfCommand.Value (sf : QualifierOfCommand) : Nat :=
  let v := (sf.Qual &&& 0x1f) <<< 2
  if sf.InSelect then v ||| 0x80 else v

/-- SingleCommandInfo of the control-direction source file. -/
structure SingleCommandInfo where
  Ioa : Nat
  Value : Bool
  Qoc : QualifierOfCommand
  Time : Tm
  deriving DecidableEq, Repr

/-- SingleCmd of the control-direction source file: [C_SC_NA_1] or
[C_SC_TA_1]. -/
def SingleCmd (p : Params) (typeID : TypeID) (coa : CauseOfTransmission)
    (ca : Nat) (cmd : SingleCommandInfo) : Except Error ASDU :=
  if ¬(coa.Cause = Activation ∨ coa.Cause = Deactivation) then
    .error .CmdCause
  else match p.Valid with
  | .error e => .error e
  | .ok _ =>
    let u := NewASDU p ⟨typeID, ⟨1, false⟩, coa, 0, ca⟩
    match u.AppendInfoObjAddr cmd.Ioa with
    | .error e => .error e
    | .ok u =>
      let value := cmd.Qoc.Value
      let value := if cmd.Value then value ||| 0x01 else value
      let u := u.AppendBytes [value]
      if typeID = C_SC_NA_1 then .ok u
      else if typeID = C_SC_TA_1 then
        .ok (u.AppendBytes (CP56Time2a cmd.Time))
      else .error .TypeIDNotMatch

/-! ### System commands in the control direction (asdu/csys.go) -/

/-- QualifierCountCall of asdu/information.go. -/
structure QualifierCountCall where
  Request : Nat
  Freeze : Nat
  deriving DecidableEq, Repr

/-- QualifierCountCall.Value of asdu/information.go. -/
def QualifierCountCall.Value (sf : QualifierCountCall) : Nat :=
  (sf.Request &&& 0x3f) ||| (sf.Freeze &&& 0xc0)

/-- FBPTestWord of asdu/information.go. -/
def FBPTestWord : Nat := 0x55aa

/-- InterrogationCmd of asdu/csys.go [C_IC_NA_1]: admits Activation and
Deactivation, keeps the caller's cause. -/
def InterrogationCmd (p : Params) (coa : CauseOfTransmission) (ca : Nat)
    (qoi : Nat) : Except Error ASDU :=
  if ¬(coa.Cause = Activation ∨ coa.Cause = Deactivation) then
    .error .CmdCause
  else match p.Valid with
  | .error e => .error e
  | .ok _ =>
    let u := NewASDU p ⟨C_IC_NA_1, ⟨1, false⟩, coa, 0, ca⟩
    match u.AppendInfoObjAddr InfoObjAddrIrrelevant with
    | .error e => .error e
    | .ok u => .ok (u.AppendBytes [qoi])

/-- CounterInterrogationCmd of asdu/csys.go [C_CI_NA_1]: force-sets the
cause to Activation. -/
def CounterInterrogationCmd (p : Params) (coa : CauseOfTransmission)
    (ca : Nat) (qcc : QualifierCountCall) : Except Error ASDU :=
  match p.Valid with
  | .error e => .error e
  | .ok _ =>
    let coa := { coa with Cause := Activation }
    let u := NewASDU p ⟨C_CI_NA_1, ⟨1, false⟩, coa, 0, ca⟩
    match u.AppendInfoObjAddr InfoObjAddrIrrelevant with
    | .error e => .error e
    | .ok u => .ok (u.AppendBytes [qcc.Value])

/-- ReadCmd of asdu/csys.go [C_RD_NA_1]: force-sets the cause to
Request. -/
def ReadCmd (p : Params) (coa : CauseOfTransmission) (ca : Nat)
    (ioa : Nat) : Except Error ASDU :=
  match p.Valid with
  | .error e => .error e
  | .ok _ =>
    let coa := { coa with Cause := Request }
    let u := NewASDU p ⟨C_RD_NA_1, ⟨1, false⟩, coa, 0, ca⟩
    match u.AppendInfoObjAddr ioa with
    | .error e => .error e
    | .ok u => .ok u

/-- ClockSynchronizationCmd of asdu/csys.go [C_CS_NA_1]: force-sets the
cause to Activation and appends a CP56Time2a tag. -/
def ClockSynchronizationCmd (p : Params) (coa : CauseOfTransmission)
    (ca : Nat) (t : Tm) : Except Error ASDU :=
  match p.Valid with
  | .error e => .error e
  | .ok _ =>
    let coa := { coa with Cause := Activation }
    let u := NewASDU p ⟨C_CS_NA_1, ⟨1, false⟩, coa, 0, ca⟩
    match u.AppendInfoObjAddr InfoObjAddrIrrelevant with
    | .error e => .error e
    | .ok u => .ok (u.AppendBytes (CP56Time2a t))

/-- TestCommand of asdu/csys.go [C_TS_NA_1]: force-sets the cause to
Activation and appends the FBP test word little-endian. -/
def TestCommand (p : Params) (coa : CauseOfTransmission) (ca : Nat) :
    Except Error ASDU :=
  match p.Valid with
  | .error e => .error e
  | .ok _ =>
    let coa := { coa with Cause := Activation }
    let u := NewASDU p ⟨C_TS_NA_1, ⟨1, false⟩, coa, 0, ca⟩
    match u.AppendInfoObjAddr InfoObjAddrIrrelevant with
    | .error e => .error e
    | .ok u => .ok (u.AppendBytes [FBPTestWord &&& 0xff, FBPTestWord >>> 8])

/-- ResetProcessCmd of asdu/csys.go [C_RP_NA_1]: force-sets the cause to
Activation. -/
def ResetProcessCmd (p : Params) (coa : CauseOfTransmission) (ca : Nat)
    (qrp : Nat) : Except Error ASDU :=
  match p.Valid with
  | .error e => .error e
  | .ok _ =>
    let coa := { coa with Cause := Activation }
    let u := NewASDU p ⟨C_RP_NA_1, ⟨1, false⟩, coa, 0, ca⟩
    match u.AppendInfoObjAddr InfoObjAddrIrrelevant with
    | .error e => .error e
    | .ok u => .ok (u.AppendBytes [qrp])

/-- DelayAcquireCommand of asdu/csys.go [C_CD_NA_1]: admits Spontaneous
and Activation, keeps the caller's cause (it does NOT force-set). -/
def DelayAcquireCommand (p : Params) (coa : CauseOfTransmission) (ca : Nat)
    (msec : Nat) : Except Error ASDU :=
  if ¬(coa.Cause = Spontaneous ∨ coa.Cause = Activation) then
    .error .CmdCause
  else match p.Valid with
  | .error e => .error e
  | .ok _ =>
    let u := NewASDU p ⟨C_CD_NA_1, ⟨1, false⟩, coa, 0, ca⟩
    match u.AppendInfoObjAddr InfoObjAddrIrrelevant with
    | .error e => .error e
    | .ok u => .ok (u.AppendCP16Time2a msec)

/-! ### Decode cursor (the `Decode*` methods).

The Go methods consume a prefix of `infoObj` and panic on underflow; the
embedding threads the remaining byte list explicitly and returns `none`
for a panic. -/

/-- ASDU.DecodeByte: consume one octet. -/
def DecodeByte : List Nat → Option (Nat × List Nat)
  | b :: rest => some (b, rest)
  | [] => none

/-- ASDU.DecodeInfoObjAddr: consume 1, 2 or 3 octets little-endian per the
configured width (`b0 | b1<<8 | b2<<16` on disjoint byte lanes, written as
sums). -/
def DecodeInfoObjAddr (size : Nat) (bytes : List Nat) :
    Option (Nat × List Nat) :=
  if size = 1 then
    match bytes with
    | b0 :: rest => some (b0, rest)
    | _ => none
  else if size = 2 then
    match bytes with
    | b0 :: b1 :: rest => some (b0 + b1 * 256, rest)
    | _ => none
  else if size = 3 then
    match bytes with
    | b0 :: b1 :: b2 :: rest => some (b0 + b1 * 256 + b2 * 65536, rest)
    | _ => none
  else none

/-- Modelled from the spec: ParseCP56Time2a reads the 7-octet layout back
into the broken-down local time (spec section 4.1); asdu/time.go is not
among the sources. -/
def ParseCP56Time2a (bs : List Nat) : Tm :=
  { Msec := bs.getD 0 0 + (bs.getD 1 0) * 256
    Minute := (bs.getD 2 0) % 64
    Invalid := (bs.getD 2 0) / 128 % 2 = 1
    Hour := (bs.getD 3 0) % 32
    Summer := (bs.getD 3 0) / 128 % 2 = 1
    Day := (bs.getD 4 0) % 32
    Dow := (bs.getD 4 0) / 32 % 8
    Month := (bs.getD 5 0) % 16
    Year := (bs.getD 6 0) % 128 }

/-- Modelled from the spec: ParseCP24Time2a reads the 3-octet `{ms, min}`
truncation (spec section 4.1). -/
def ParseCP24Time2a (bs : List Nat) : Tm :=
  { Msec := bs.getD 0 0 + (bs.getD 1 0) * 256
    Minute := (bs.getD 2 0) % 64
    Invalid := (bs.getD 2 0) / 128 % 2 = 1
    Hour := 0, Summer := false, Day := 0, Dow := 0, Month := 0, Year := 0 }

/-- ASDU.DecodeCP56Time2a: consume 7 octets. -/
def DecodeCP56Time2a (bs : List Nat) : Option (Tm × List Nat) :=
  if bs.length < 7 then none else some (ParseCP56Time2a bs, bs.drop 7)

/-- ASDU.DecodeCP24Time2a: consume 3 octets. -/
def DecodeCP24Time2a (bs : List Nat) : Option (Tm × List Nat) :=
  if bs.length < 3 then none else some (ParseCP24Time2a bs, bs.drop 3)

/-- The Go zero value of `time.Time` as a broken-down instant (all fields
zero), produced when the TypeID carries no time tag. -/
def Tm.zero : Tm :=
  { Msec := 0, Minute := 0, Invalid := false, Hour := 0, Summer := false
    Day := 0, Dow := 0, Month := 0, Year := 0 }

/-- The loop of GetSinglePoint: on the first iteration (or always when not
in sequence mode) decode an IOA; afterwards, in sequence mode, increment
the previous address.  Then one value octet and the time tag dictated by
the TypeID; an unknown TypeID panics (`none`). -/
def getSinglePointLoop (p : Params) (ty : TypeID) (isSeq : Bool) :
    Nat → Bool → Nat → List Nat → Option (List SinglePointInfo)
  | 0, _, _, _ => some []
  | n + 1, once, addr, bytes =>
    match (if ¬isSeq ∨ ¬once then DecodeInfoObjAddr p.InfoObjAddrSize bytes
           else some (addr + 1, bytes)) with
    | none => none
    | some (addr, bytes) =>
      match DecodeByte bytes with
      | none => none
      | some (value, bytes) =>
        match (if ty = M_SP_NA_1 then some (Tm.zero, bytes)
               else if ty = M_SP_TA_1 then DecodeCP24Time2a bytes
               else if ty = M_SP_TB_1 then DecodeCP56Time2a bytes
               else none) with
        | none => none
        | some (t, bytes) =>
          match getSinglePointLoop p ty isSeq n true addr bytes with
          | none => none
          | some rest =>
            some ({ Ioa := addr, Value := value &&& 0x01 = 0x01,
                    Qds := value &&& 0xf0, Time := t } :: rest)

/-- GetSinglePoint of asdu/identifier.go: decode `Variable.Number` single
points, auto-incrementing the IOA in sequence mode. -/
def GetSinglePoint (u : ASDU) : Option (List SinglePointInfo) :=
  getSinglePointLoop u.params u.ident.Ty u.ident.Variable.IsSequence
    u.ident.Variable.Number false 0 u.infoObj

/-! ### CS-104 APCI framing (part_002, package cs104) -/

/-- The APDU start octet. -/
def startFrame : Nat := 0x68

def uStartDtActive : Nat := 0x04
def uStartDtConfirm : Nat := 0x08
def uStopDtActive : Nat := 0x10
def uStopDtConfirm : Nat := 0x20
def uTestFrActive : Nat := 0x40
def uTestFrConfirm : Nat := 0x80

/-- The three APCI frame families returned by `parse` (iAPCI, sAPCI,
uAPCI of the cs104 source). -/
inductive APCIFrame where
  | iAPCI (sendSN rcvSN : Nat)
  | sAPCI (rcvSN : Nat)
  | uAPCI (uFunction : Nat)
  deriving DecidableEq, Repr

/-- newIFrame of the cs104 source: reject ASDUs over ASDUSizeMax, else
emit `[0x68, len+4, sendSN<<1, sendSN>>7, rcvSN<<1, rcvSN>>7] ++ asdus`.
Go's `byte(x)` is `% 256`; the intermediate uint16 shift `sendSN << 1`
wraps mod 2^16, and `(2n % 2^16) % 256 = 2n % 256`, so the control octets
are written as `% 256` directly. -/
def newIFrame (sendSN RcvSN : Nat) (asdus : List Nat) : Option (List Nat) :=
  if asdus.length > ASDUSizeMax then none
  else some (startFrame :: (asdus.length + 4) % 256 ::
    (sendSN * 2) % 256 :: (sendSN / 128) % 256 ::
    (RcvSN * 2) % 256 :: (RcvSN / 128) % 256 :: asdus)

/-- newSFrame of the cs104 source. -/
def newSFrame (RcvSN : Nat) : List Nat :=
  [startFrame, 4, 0x01, 0x00, (RcvSN * 2) % 256, (RcvSN / 128) % 256]

/-- newUFrame of the cs104 source. -/
def newUFrame (which : Nat) : List Nat :=
  [startFrame, 4, which ||| 0x03, 0x00, 0x00, 0x00]

/-- parse of the cs104 source: classify the six-octet APCI header (start
and length octets are read into the APCI record but never inspected) and
return the frame with the remaining bytes.  Sequence numbers are uint16
computations `ctr1>>1 + ctr2<<7` (each `% 2^16`).  Inputs shorter than six
octets would make the Go code panic on indexing (`none` here). -/
def parse : List Nat → Option (APCIFrame × List Nat)
  | _b0 :: _b1 :: c1 :: c2 :: c3 :: c4 :: rest =>
    if c1 &&& 0x01 = 0 then
      some (.iAPCI (((c1 >>> 1) + (c2 <<< 7) % 65536) % 65536)
                   (((c3 >>> 1) + (c4 <<< 7) % 65536) % 65536), rest)
    else if c1 &&& 0x03 = 0x01 then
      some (.sAPCI (((c3 >>> 1) + (c4 <<< 7) % 65536) % 65536), rest)
    else
      some (.uAPCI (c1 &&& 0xfc), rest)
  | _ => none

/-! ### CS-104 configuration (package cs104 part of ft.go) -/

/-- Go `time.Second` in nanoseconds (`time.Duration` is signed 64-bit
nanoseconds; no wrap occurs in the validation ranges, so `Int` is
faithful). -/
def second : Int := 1000000000

/-- Go `time.Hour` in nanoseconds. -/
def hour : Int := 3600 * 1000000000

def ConnectTimeout0Min : Int := 1 * second
def ConnectTimeout0Max : Int := 255 * second
def SendUnAckTimeout1Min : Int := 1 * second
def SendUnAckTimeout1Max : Int := 255 * second
def RecvUnAckTimeout2Min : Int := 1 * second
def RecvUnAckTimeout2Max : Int := 255 * second
def IdleTimeout3Min : Int := 1 * second
def IdleTimeout3Max : Int := 48 * hour
def SendUnAckLimitKMin : Nat := 1
def SendUnAckLimitKMax : Nat := 32767
def RecvUnAckLimitWMin : Nat := 1
def RecvUnAckLimitWMax : Nat := 32767

/-- Config of the cs104 source (k and w are uint16; the durations are Go
`time.Duration` values in nanoseconds). -/
structure Config where
  ConnectTimeout0 : Int
  SendUnAckLimitK : Nat
  SendUnAckTimeout1 : Int
  RecvUnAckLimitW : Nat
  RecvUnAckTimeout2 : Int
  IdleTimeout3 : Int
  deriving DecidableEq, Repr

/-- The six distinct `errors.New` results of Config.Valid, in source
order. -/
inductive ConfigErr where
  | badT0 | badK | badT1 | badW | badT2 | badT3
  deriving DecidableEq, Repr

/-- The t0 block of Config.Valid. -/
def Config.validT0 (sf : Config) : Except ConfigErr Config :=
  if sf.ConnectTimeout0 = 0 then
    .ok { sf with ConnectTimeout0 := 30 * second }
  else if sf.ConnectTimeout0 < ConnectTimeout0Min ∨
          sf.ConnectTimeout0 > ConnectTimeout0Max then .error .badT0
  else .ok sf

/-- The k block of Config.Valid. -/
def Config.validK (sf : Config) : Except ConfigErr Config :=
  if sf.SendUnAckLimitK = 0 then
    .ok { sf with SendUnAckLimitK := 12 }
  else if sf.SendUnAckLimitK < SendUnAckLimitKMin ∨
          sf.SendUnAckLimitK > SendUnAckLimitKMax then .error .badK
  else .ok sf

/-- The t1 block of Config.Valid. -/
def Config.validT1 (sf : Config) : Except ConfigErr Config :=
  if sf.SendUnAckTimeout1 = 0 then
    .ok { sf with SendUnAckTimeout1 := 15 * second }
  else if sf.SendUnAckTimeout1 < SendUnAckTimeout1Min ∨
          sf.SendUnAckTimeout1 > SendUnAckTimeout1Max then .error .badT1
  else .ok sf

/-- The w block of Config.Valid. -/
def Config.validW (sf : Config) : Except ConfigErr Config :=
  if sf.RecvUnAckLimitW = 0 then
    .ok { sf with RecvUnAckLimitW := 8 }
  else if sf.RecvUnAckLimitW < RecvUnAckLimitWMin ∨
          sf.RecvUnAckLimitW > RecvUnAckLimitWMax then .error .badW
  else .ok sf

/-- The t2 block of Config.Valid. -/
def Config.validT2 (sf : Config) : Except ConfigErr Config :=
  if sf.RecvUnAckTimeout2 = 0 then
    .ok { sf with RecvUnAckTimeout2 := 10 * second }
  else if sf.RecvUnAckTimeout2 < RecvUnAckTimeout2Min ∨
          sf.RecvUnAckTimeout2 > RecvUnAckTimeout2Max then .error .badT2
  else .ok sf

/-- The t3 block of Config.Valid. -/
def Config.validT3 (sf : Config) : Except ConfigErr Config :=
  if sf.IdleTimeout3 = 0 then
    .ok { sf with IdleTimeout3 := 20 * second }
  else if sf.IdleTimeout3 < IdleTimeout3Min ∨
          sf.IdleTimeout3 > IdleTimeout3Max then .error .badT3
  else .ok sf

/-- Config.Valid of the cs104 source: each zero field is replaced by its
IEC default, each nonzero field is range-checked with an early error
return; the six source blocks run in order.  The Go method mutates its
receiver; the embedding returns the updated record.  (The nil-receiver
branch has no counterpart for a value argument.) -/
def Config.Valid (sf : Config) : Except ConfigErr Config :=
  match sf.validT0 with
  | .error e => .error e
  | .ok sf =>
    match sf.validK with
    | .error e => .error e
    | .ok sf =>
      match sf.validT1 with
      | .error e => .error e
      | .ok sf =>
        match sf.validW with
        | .error e => .error e
        | .ok sf =>
          match sf.validT2 with
          | .error e => .error e
          | .ok sf =>
            match sf.validT3 with
            | .error e => .error e
            | .ok sf => .ok sf

/-! ## Theorems -/

/-- C7: for every StepPosition with `Val` in [-64, 63] and either value of
`HasTransient`, decoding the encoded octet gives the StepPosition back:
the encoding keeps the low 7 two's-complement bits plus the transient bit,
and the decoder sign-extends from bit 6. -/
theorem stepPosition_value_roundtrip (v : Int) (t : Bool)
    (h1 : -64 ≤ v) (h2 : v ≤ 63) :
    ParseStepPosition (StepPosition.Value ⟨v, t⟩) = ⟨v, t⟩ := by
  cases t <;> interval_cases v <;> decide

/-- Witness for C7 at Val = -64 with the transient bit set. -/
theorem stepPosition_value_roundtrip_witness :
    (-64 ≤ (-64 : Int) ∧ (-64 : Int) ≤ 63) ∧
    ParseStepPosition (StepPosition.Value ⟨-64, true⟩) = ⟨-64, true⟩ :=
  ⟨⟨by decide, by decide⟩,
   stepPosition_value_roundtrip (-64) true (by decide) (by decide)⟩

/-- C1 (divergence witness): `StepCP56Time2a`, called with an admitted
cause (Spontaneous), valid params and one step-position object, hands
`Connect.Send` an ASDU whose type identification is `M_SP_TB_1` (30,
single point with CP56Time2a) and not `M_ST_TB_1` (32) as its own
documentation states — `step`'s CP56 switch case also matches
`M_SP_TB_1`, so the object is still followed by a CP56Time2a tag. -/
theorem stepCP56Time2a_sends_single_point_type :
    StepCP56Time2a ⟨1, 1, 1⟩ ⟨false, false, Spontaneous⟩ 1
        [⟨100, ⟨5, false⟩, 0, Tm.zero⟩] =
      .ok { params := ⟨1, 1, 1⟩,
            ident := { Ty := M_SP_TB_1, Variable := ⟨1, false⟩,
                       Coa := ⟨false, false, Spontaneous⟩,
                       OrigAddr := 0, CommonAddr := 1 },
            infoObj := [100, 5, 0, 0, 0, 0, 0, 0, 0, 0] } ∧
    M_SP_TB_1 ≠ M_ST_TB_1 := by
  decide

set_option maxRecDepth 20000 in
/-- C4 (divergence witness): because `StepCP56Time2a` builds with
`M_SP_TB_1` (object size 8 in the `infoObjSize` map) while the encoder
appends 9 octets per object (value, quality, 7-octet CP56 tag), a build
that `checkValid` admits (27 objects: 4 + 27*(8+1) = 247 ≤ 249) returns
success with a 274-octet ASDU, exceeding ASDUSizeMax = 249. -/
theorem stepCP56Time2a_overflows_asduSizeMax :
    (StepCP56Time2a ⟨1, 1, 1⟩ ⟨false, false, Spontaneous⟩ 1
        (List.replicate 27 ⟨100, ⟨5, false⟩, 0, Tm.zero⟩)).toOption.map
      (fun u => u.params.IdentifierSize + u.infoObj.length) = some 274 ∧
    ASDUSizeMax < 274 := by
  decide

/-- C2 (counterexample): `DelayAcquireCommand` does not overwrite the
caller's cause of transmission; with cause Request it returns the
CmdCause error. -/
theorem delayAcquireCommand_request_cmdCause :
    DelayAcquireCommand ⟨1, 1, 1⟩ ⟨false, false, Request⟩ 1 100 =
      .error .CmdCause := by
  decide

/-- Params.Valid either accepts or reports the Param error. -/
lemma Params.Valid_ok_or (p : Params) :
    p.Valid = .ok () ∨ p.Valid = .error .Param := by
  unfold Params.Valid
  split
  · left; rfl
  · right; rfl

/-- Appending the irrelevant (zero) information-object address always
fits; it fails only on an invalid width. -/
lemma appendIOA_zero (u : ASDU) :
    u.AppendInfoObjAddr 0 =
      .ok (u.AppendBytes (ioaBytes u.params.InfoObjAddrSize 0)) ∨
    u.AppendInfoObjAddr 0 = .error .Param := by
  unfold ASDU.AppendInfoObjAddr
  split_ifs <;> simp_all [ioaBytes]

/-- AppendInfoObjAddr never changes the identifier or the params. -/
lemma appendIOA_ident (u : ASDU) (addr : Nat) (u' : ASDU)
    (h : u.AppendInfoObjAddr addr = .ok u') :
    u'.ident = u.ident ∧ u'.params = u.params := by
  unfold ASDU.AppendInfoObjAddr at h
  split_ifs at h <;> injection h with h <;> subst h <;> exact ⟨rfl, rfl⟩

/-- AppendInfoObjAddr never reports CmdCause. -/
lemma appendIOA_ne_cmdCause (u : ASDU) (addr : Nat) :
    u.AppendInfoObjAddr addr ≠ .error .CmdCause := by
  unfold ASDU.AppendInfoObjAddr
  split_ifs <;> simp

/-- C2 (amended): the five builders CounterInterrogationCmd, ReadCmd,
ClockSynchronizationCmd, TestCommand and ResetProcessCmd overwrite the
caller's cause with the protocol-mandated value (Activation, Request for
read) and never return the CmdCause error; DelayAcquireCommand does not
overwrite — it passes the caller's cause through, admitting only
Spontaneous or Activation and returning CmdCause otherwise. -/
theorem sysCommands_force_set_cause (p : Params) (coa : CauseOfTransmission)
    (ca : Nat) (qcc : QualifierCountCall) (ioa msec qrp : Nat) (t : Tm) :
    (CounterInterrogationCmd p coa ca qcc ≠ .error .CmdCause ∧
      ∀ u, CounterInterrogationCmd p coa ca qcc = .ok u →
        u.ident.Coa.Cause = Activation) ∧
    (ReadCmd p coa ca ioa ≠ .error .CmdCause ∧
      ∀ u, ReadCmd p coa ca ioa = .ok u → u.ident.Coa.Cause = Request) ∧
    (ClockSynchronizationCmd p coa ca t ≠ .error .CmdCause ∧
      ∀ u, ClockSynchronizationCmd p coa ca t = .ok u →
        u.ident.Coa.Cause = Activation) ∧
    (TestCommand p coa ca ≠ .error .CmdCause ∧
      ∀ u, TestCommand p coa ca = .ok u → u.ident.Coa.Cause = Activation) ∧
    (ResetProcessCmd p coa ca qrp ≠ .error .CmdCause ∧
      ∀ u, ResetProcessCmd p coa ca qrp = .ok u →
        u.ident.Coa.Cause = Activation) ∧
    ((¬(coa.Cause = Spontaneous ∨ coa.Cause = Activation) →
        DelayAcquireCommand p coa ca msec = .error .CmdCause) ∧
      ∀ u, DelayAcquireCommand p coa ca msec = .ok u →
        u.ident.Coa.Cause = coa.Cause) := by
  have hCI : CounterInterrogationCmd p coa ca qcc ≠ .error .CmdCause ∧
      ∀ u, CounterInterrogationCmd p coa ca qcc = .ok u →
        u.ident.Coa.Cause = Activation := by
    constructor
    · rcases Params.Valid_ok_or p with hv | hv
      · rcases appendIOA_zero (NewASDU p ⟨C_CI_NA_1, ⟨1, false⟩,
            { coa with Cause := Activation }, 0, ca⟩) with ha | ha <;>
          simp [CounterInterrogationCmd, InfoObjAddrIrrelevant, hv, ha]
      · simp [CounterInterrogationCmd, hv]
    · intro u hu
      rcases Params.Valid_ok_or p with hv | hv
      · rcases appendIOA_zero (NewASDU p ⟨C_CI_NA_1, ⟨1, false⟩,
            { coa with Cause := Activation }, 0, ca⟩) with ha | ha <;>
          simp [CounterInterrogationCmd, InfoObjAddrIrrelevant, hv, ha] at hu
        subst hu
        rfl
      · simp [CounterInterrogationCmd, hv] at hu
  have hRD : ReadCmd p coa ca ioa ≠ .error .CmdCause ∧
      ∀ u, ReadCmd p coa ca ioa = .ok u → u.ident.Coa.Cause = Request := by
    constructor
    · rcases Params.Valid_ok_or p with hv | hv
      · rcases hr : (NewASDU p ⟨C_RD_NA_1, ⟨1, false⟩,
            { coa with Cause := Request }, 0, ca⟩).AppendInfoObjAddr ioa
            with e | u'
        · have hne := appendIOA_ne_cmdCause (NewASDU p ⟨C_RD_NA_1, ⟨1, false⟩,
            { coa with Cause := Request }, 0, ca⟩) ioa
          rw [hr] at hne
          simp only [ne_eq, Except.error.injEq] at hne
          simp [ReadCmd, hv, hr, hne]
        · simp [ReadCmd, hv, hr]
      · simp [ReadCmd, hv]
    · intro u hu
      rcases Params.Valid_ok_or p with hv | hv
      · rcases hr : (NewASDU p ⟨C_RD_NA_1, ⟨1, false⟩,
            { coa with Cause := Request }, 0, ca⟩).AppendInfoObjAddr ioa
            with e | u' <;>
          simp [ReadCmd, hv, hr] at hu
        subst hu
        have hi := appendIOA_ident _ _ _ hr
        rw [hi.1]
        rfl
      · simp [ReadCmd, hv] at hu
  have hCS : ClockSynchronizationCmd p coa ca t ≠ .error .CmdCause ∧
      ∀ u, ClockSynchronizationCmd p coa ca t = .ok u →
        u.ident.Coa.Cause = Activation := by
    constructor
    · rcases Params.Valid_ok_or p with hv | hv
      · rcases appendIOA_zero (NewASDU p ⟨C_CS_NA_1, ⟨1, false⟩,
            { coa with Cause := Activation }, 0, ca⟩) with ha | ha <;>
          simp [ClockSynchronizationCmd, InfoObjAddrIrrelevant, hv, ha]
      · simp [ClockSynchronizationCmd, hv]
    · intro u hu
      rcases Params.Valid_ok_or p with hv | hv
      · rcases appendIOA_zero (NewASDU p ⟨C_CS_NA_1, ⟨1, false⟩,
            { coa with Cause := Activation }, 0, ca⟩) with ha | ha <;>
          simp [ClockSynchronizationCmd, InfoObjAddrIrrelevant, hv, ha] at hu
        subst hu
        rfl
      · simp [ClockSynchronizationCmd, hv] at hu
  have hTS : TestCommand p coa ca ≠ .error .CmdCause ∧
      ∀ u, TestCommand p coa ca = .ok u → u.ident.Coa.Cause = Activation := by
    constructor
    · rcases Params.Valid_ok_or p with hv | hv
      · rcases appendIOA_zero (NewASDU p ⟨C_TS_NA_1, ⟨1, false⟩,
            { coa with Cause := Activation }, 0, ca⟩) with ha | ha <;>
          simp [TestCommand, InfoObjAddrIrrelevant, hv, ha]
      · simp [TestCommand, hv]
    · intro u hu
      rcases Params.Valid_ok_or p with hv | hv
      · rcases appendIOA_zero (NewASDU p ⟨C_TS_NA_1, ⟨1, false⟩,
            { coa with Cause := Activation }, 0, ca⟩) with ha | ha <;>
          simp [TestCommand, InfoObjAddrIrrelevant, hv, ha] at hu
        subst hu
        rfl
      · simp [TestCommand, hv] at hu
  have hRP : ResetProcessCmd p coa ca qrp ≠ .error .CmdCause ∧
      ∀ u, ResetProcessCmd p coa ca qrp = .ok u →
        u.ident.Coa.Cause = Activation := by
    constructor
    · rcases Params.Valid_ok_or p with hv | hv
      · rcases appendIOA_zero (NewASDU p ⟨C_RP_NA_1, ⟨1, false⟩,
            { coa with Cause := Activation }, 0, ca⟩) with ha | ha <;>
          simp [ResetProcessCmd, InfoObjAddrIrrelevant, hv, ha]
      · simp [ResetProcessCmd, hv]
    · intro u hu
      rcases Params.Valid_ok_or p with hv | hv
      · rcases appendIOA_zero (NewASDU p ⟨C_RP_NA_1, ⟨1, false⟩,
            { coa with Cause := Activation }, 0, ca⟩) with ha | ha <;>
          simp [ResetProcessCmd, InfoObjAddrIrrelevant, hv, ha] at hu
        subst hu
        rfl
      · simp [ResetProcessCmd, hv] at hu
  have hCD : (¬(coa.Cause = Spontaneous ∨ coa.Cause = Activation) →
      DelayAcquireCommand p coa ca msec = .error .CmdCause) ∧
      ∀ u, DelayAcquireCommand p coa ca msec = .ok u →
        u.ident.Coa.Cause = coa.Cause := by
    constructor
    · intro h
      simp [DelayAcquireCommand, h]
    · intro u hu
      by_cases h : coa.Cause = Spontaneous ∨ coa.Cause = Activation
      · rcases Params.Valid_ok_or p with hv | hv
        · rcases appendIOA_zero (NewASDU p ⟨C_CD_NA_1, ⟨1, false⟩,
              coa, 0, ca⟩) with ha | ha <;>
            simp [DelayAcquireCommand, InfoObjAddrIrrelevant, h, hv, ha] at hu
          subst hu
          rfl
        · simp [DelayAcquireCommand, h, hv] at hu
      · simp [DelayAcquireCommand, h] at hu
  exact ⟨hCI, hRD, hCS, hTS, hRP, hCD⟩

/-- Witness for the amended C2: counter interrogation with caller cause 13
is force-set to Activation, while DelayAcquireCommand with the same cause
returns CmdCause. -/
theorem sysCommands_force_set_cause_witness :
    (∃ u, CounterInterrogationCmd ⟨1, 1, 1⟩ ⟨true, true, 13⟩ 1 ⟨0, 0⟩ =
        .ok u ∧ u.ident.Coa.Cause = Activation) ∧
    DelayAcquireCommand ⟨1, 1, 1⟩ ⟨true, true, 13⟩ 1 5 =
      .error .CmdCause := by
  have h := sysCommands_force_set_cause ⟨1, 1, 1⟩ ⟨true, true, 13⟩ 1
    ⟨0, 0⟩ 0 5 0 Tm.zero
  constructor
  · have hok : CounterInterrogationCmd ⟨1, 1, 1⟩ ⟨true, true, 13⟩ 1 ⟨0, 0⟩ =
        .ok ⟨⟨1, 1, 1⟩, ⟨C_CI_NA_1, ⟨1, false⟩, ⟨true, true, Activation⟩, 0, 1⟩,
          [0, 0]⟩ := by decide
    exact ⟨_, hok, h.1.2 _ hok⟩
  · exact h.2.2.2.2.2.1 (by decide)

/-- C10: the five cause-overwriting commands modify only the Cause field
of the caller-supplied CauseOfTransmission — the IsTest and IsNegative
flags pass through unchanged into the identifier of the ASDU handed to
Connect.Send. -/
theorem sysCommands_flags_pass_through (p : Params)
    (coa : CauseOfTransmission) (ca : Nat) (qcc : QualifierCountCall)
    (ioa qrp : Nat) (t : Tm) :
    (∀ u, CounterInterrogationCmd p coa ca qcc = .ok u →
        u.ident.Coa = ⟨coa.IsTest, coa.IsNegative, Activation⟩) ∧
    (∀ u, ReadCmd p coa ca ioa = .ok u →
        u.ident.Coa = ⟨coa.IsTest, coa.IsNegative, Request⟩) ∧
    (∀ u, ClockSynchronizationCmd p coa ca t = .ok u →
        u.ident.Coa = ⟨coa.IsTest, coa.IsNegative, Activation⟩) ∧
    (∀ u, TestCommand p coa ca = .ok u →
        u.ident.Coa = ⟨coa.IsTest, coa.IsNegative, Activation⟩) ∧
    (∀ u, ResetProcessCmd p coa ca qrp = .ok u →
        u.ident.Coa = ⟨coa.IsTest, coa.IsNegative, Activation⟩) := by
  refine ⟨?_, ?_, ?_, ?_, ?_⟩
  · intro u hu
    rcases Params.Valid_ok_or p with hv | hv
    · rcases appendIOA_zero (NewASDU p ⟨C_CI_NA_1, ⟨1, false⟩,
          { coa with Cause := Activation }, 0, ca⟩) with ha | ha <;>
        simp [CounterInterrogationCmd, InfoObjAddrIrrelevant, hv, ha] at hu
      subst hu
      rfl
    · simp [CounterInterrogationCmd, hv] at hu
  · intro u hu
    rcases Params.Valid_ok_or p with hv | hv
    · rcases hr : (NewASDU p ⟨C_RD_NA_1, ⟨1, false⟩,
          { coa with Cause := Request }, 0, ca⟩).AppendInfoObjAddr ioa
          with e | u' <;>
        simp [ReadCmd, hv, hr] at hu
      subst hu
      have hi := appendIOA_ident _ _ _ hr
      rw [hi.1]
      rfl
    · simp [ReadCmd, hv] at hu
  · intro u hu
    rcases Params.Valid_ok_or p with hv | hv
    · rcases appendIOA_zero (NewASDU p ⟨C_CS_NA_1, ⟨1, false⟩,
          { coa with Cause := Activation }, 0, ca⟩) with ha | ha <;>
        simp [ClockSynchronizationCmd, InfoObjAddrIrrelevant, hv, ha] at hu
      subst hu
      rfl
    · simp [ClockSynchronizationCmd, hv] at hu
  · intro u hu
    rcases Params.Valid_ok_or p with hv | hv
    · rcases appendIOA_zero (NewASDU p ⟨C_TS_NA_1, ⟨1, false⟩,
          { coa with Cause := Activation }, 0, ca⟩) with ha | ha <;>
        simp [TestCommand, InfoObjAddrIrrelevant, hv, ha] at hu
      subst hu
      rfl
    · simp [TestCommand, hv] at hu
  · intro u hu
    rcases Params.Valid_ok_or p with hv | hv
    · rcases appendIOA_zero (NewASDU p ⟨C_RP_NA_1, ⟨1, false⟩,
          { coa with Cause := Activation }, 0, ca⟩) with ha | ha <;>
        simp [ResetProcessCmd, InfoObjAddrIrrelevant, hv, ha] at hu
      subst hu
      rfl
    · simp [ResetProcessCmd, hv] at hu

/-- Witness for C10: with IsTest and IsNegative both set and caller cause
13, TestCommand's ASDU carries ⟨true, true, Activation⟩. -/
theorem sysCommands_flags_pass_through_witness :
    (∃ u, TestCommand ⟨1, 1, 1⟩ ⟨true, true, 13⟩ 1 = .ok u ∧
      u.ident.Coa = ⟨true, true, Activation⟩) := by
  have hok : TestCommand ⟨1, 1, 1⟩ ⟨true, true, 13⟩ 1 =
      .ok ⟨⟨1, 1, 1⟩, ⟨C_TS_NA_1, ⟨1, false⟩, ⟨true, true, Activation⟩, 0, 1⟩,
        [0, 0xaa, 0x55]⟩ := by decide
  exact ⟨_, hok,
    (sysCommands_flags_pass_through ⟨1, 1, 1⟩ ⟨true, true, 13⟩ 1 ⟨0, 0⟩
      0 0 Tm.zero).2.2.2.1 _ hok⟩

/-- C3: every embedded typed build operation rejects a cause of
transmission outside its admitted set with the CmdCause error before any
ASDU is constructed, so nothing reaches Connect.Send (the cause check is
the first statement of each builder and `.error .CmdCause` is returned
directly). -/
theorem builders_reject_unadmitted_cause (p : Params)
    (coa : CauseOfTransmission) (ca : Nat) (isSeq : Bool)
    (infos : List SinglePointInfo) (sinfos : List StepPositionInfo)
    (tid : TypeID) (cmd : SingleCommandInfo) (qoi msec : Nat) :
    (¬(coa.Cause = Background ∨ coa.Cause = Spontaneous ∨
        coa.Cause = Request ∨ coa.Cause = ReturnInfoRemote ∨
        coa.Cause = ReturnInfoLocal ∨
        (InterrogatedByStation ≤ coa.Cause ∧
          coa.Cause ≤ InterrogatedByGroup16)) →
      Single p isSeq coa ca infos = .error .CmdCause ∧
      Step p isSeq coa ca sinfos = .error .CmdCause) ∧
    (¬(coa.Cause = Spontaneous ∨ coa.Cause = Request ∨
        coa.Cause = ReturnInfoRemote ∨ coa.Cause = ReturnInfoLocal) →
      SingleCP24Time2a p coa ca infos = .error .CmdCause ∧
      SingleCP56Time2a p coa ca infos = .error .CmdCause ∧
      StepCP24Time2a p coa ca sinfos = .error .CmdCause ∧
      StepCP56Time2a p coa ca sinfos = .error .CmdCause) ∧
    (¬(coa.Cause = Activation ∨ coa.Cause = Deactivation) →
      SingleCmd p tid coa ca cmd = .error .CmdCause ∧
      InterrogationCmd p coa ca qoi = .error .CmdCause) ∧
    (¬(coa.Cause = Spontaneous ∨ coa.Cause = Activation) →
      DelayAcquireCommand p coa ca msec = .error .CmdCause) := by
  refine ⟨fun h => ⟨?_, ?_⟩, fun h => ⟨?_, ?_, ?_, ?_⟩, fun h => ⟨?_, ?_⟩,
    fun h => ?_⟩ <;>
    simp [Single, Step, SingleCP24Time2a, SingleCP56Time2a, StepCP24Time2a,
      StepCP56Time2a, SingleCmd, InterrogationCmd, DelayAcquireCommand, h]

/-- Witness for C3 at cause 13 (FileTransfer), outside every admitted set
of the embedded builders. -/
theorem builders_reject_unadmitted_cause_witness :
    Single ⟨1, 1, 1⟩ false ⟨false, false, 13⟩ 1 [] = .error .CmdCause ∧
    SingleCmd ⟨1, 1, 1⟩ C_SC_NA_1 ⟨false, false, 13⟩ 1
      ⟨1, false, ⟨0, false⟩, Tm.zero⟩ = .error .CmdCause ∧
    DelayAcquireCommand ⟨1, 1, 1⟩ ⟨false, false, 13⟩ 1 0 =
      .error .CmdCause := by
  have h := builders_reject_unadmitted_cause ⟨1, 1, 1⟩ ⟨false, false, 13⟩ 1
    false [] [] C_SC_NA_1 ⟨1, false, ⟨0, false⟩, Tm.zero⟩ 0 0
  exact ⟨(h.1 (by decide)).1, (h.2.2.1 (by decide)).1, h.2.2.2 (by decide)⟩

/-- The 15-bit sequence number split over two control octets round-trips:
recombining `ctl_lo = (sn*2) % 256` and `ctl_hi = (sn/128) % 256` with the
uint16 computation `ctl_lo >> 1 + ctl_hi << 7` gives `sn` back. -/
lemma seqSN_roundtrip (sn : Nat) (h : sn < 32768) :
    ((sn * 2 % 256) >>> 1 + ((sn / 128 % 256) <<< 7) % 65536) % 65536 = sn := by
  rw [Nat.shiftRight_eq_div_pow, Nat.shiftLeft_eq]
  norm_num
  omega

/-- C5: for every 15-bit sendSN and recvSN and every ASDU of at most 249
octets, newIFrame succeeds with an APDU starting 0x68 whose length octet
is len+4, parse returns an I-frame carrying exactly the same sequence
numbers and the original ASDU bytes; ASDUs longer than 249 octets are
rejected. -/
theorem newIFrame_parse_roundtrip (sendSN RcvSN : Nat) (asdus : List Nat)
    (hs : sendSN < 32768) (hr : RcvSN < 32768) :
    (asdus.length ≤ 249 →
      ∃ b, newIFrame sendSN RcvSN asdus = some b ∧
        b.length = asdus.length + 6 ∧
        b.head? = some startFrame ∧
        b.getD 1 0 = asdus.length + 4 ∧
        parse b = some (.iAPCI sendSN RcvSN, asdus)) ∧
    (249 < asdus.length → newIFrame sendSN RcvSN asdus = none) := by
  constructor
  · intro hlen
    have hgt : ¬ asdus.length > ASDUSizeMax := by simp only [ASDUSizeMax]; omega
    have hb : newIFrame sendSN RcvSN asdus =
        some (startFrame :: (asdus.length + 4) % 256 :: (sendSN * 2) % 256 ::
          (sendSN / 128) % 256 :: (RcvSN * 2) % 256 ::
          (RcvSN / 128) % 256 :: asdus) := by
      unfold newIFrame
      rw [if_neg hgt]
    refine ⟨_, hb, by simp, rfl, ?_, ?_⟩
    · show (asdus.length + 4) % 256 = asdus.length + 4
      omega
    · have h1 : (sendSN * 2 % 256) &&& 0x01 = 0 := by
        rw [Nat.and_one_is_mod]; omega
      simp only [parse, h1, if_pos, seqSN_roundtrip sendSN hs,
        seqSN_roundtrip RcvSN hr, if_true]
  · intro hbig
    unfold newIFrame
    rw [if_pos]
    simp only [ASDUSizeMax]
    omega

/-- Witness for C5 at sendSN = 12345, recvSN = 677, a 3-octet ASDU and a
250-octet ASDU. -/
theorem newIFrame_parse_roundtrip_witness :
    ((3 : Nat) ≤ 249 ∧ (12345 : Nat) < 32768 ∧ (677 : Nat) < 32768) ∧
    (∃ b, newIFrame 12345 677 [1, 2, 3] = some b ∧
      parse b = some (.iAPCI 12345 677, [1, 2, 3])) ∧
    newIFrame 0 0 (List.replicate 250 7) = none := by
  refine ⟨by decide, ?_, ?_⟩
  · obtain ⟨b, hb, _, _, _, hp⟩ :=
      (newIFrame_parse_roundtrip 12345 677 [1, 2, 3] (by decide)
        (by decide)).1 (by decide)
    exact ⟨b, hb, hp⟩
  · exact (newIFrame_parse_roundtrip 0 0 (List.replicate 250 7) (by decide)
      (by decide)).2 (by rw [List.length_replicate]; omega)

/-- Decoding an address encoded at its own width gives the address back,
for addresses that fit the width. -/
lemma decode_ioaBytes (w a : Nat) (rest : List Nat)
    (hw : w = 1 ∨ w = 2 ∨ w = 3) (ha : a < 256 ^ w) :
    DecodeInfoObjAddr w (ioaBytes w a ++ rest) = some (a, rest) := by
  rcases hw with h | h | h <;> subst h <;> norm_num at ha <;>
    simp [DecodeInfoObjAddr, ioaBytes] <;> omega

/-- The sequence-mode tail of the GetSinglePoint loop (once = true) for
[M_SP_NA_1]: it consumes one value octet per record and yields
consecutive addresses `addr+1, ..., addr+n`. -/
lemma getSinglePointLoop_seq_tail (p : Params) :
    ∀ (n addr : Nat) (bytes : List Nat), n ≤ bytes.length →
    ∃ l, getSinglePointLoop p M_SP_NA_1 true n true addr bytes = some l ∧
      l.map (fun r => r.Ioa) = List.range' (addr + 1) n ∧ l.length = n := by
  intro n
  induction n with
  | zero => exact fun addr bytes _ => ⟨[], rfl, rfl, rfl⟩
  | succ m ih =>
    intro addr bytes h
    rcases bytes with _ | ⟨b, rest⟩
    · simp at h
    · obtain ⟨l, hl, hmap, hlen⟩ := ih (addr + 1) rest (by simpa using h)
      refine ⟨⟨addr + 1, b &&& 0x01 = 0x01, b &&& 0xf0, Tm.zero⟩ :: l,
        ?_, ?_, by simp [hlen]⟩
      · simp [getSinglePointLoop, DecodeByte, hl]
      · simp only [List.map_cons, hmap, List.range'_succ]

/-- SetVariableNumber touches only the identifier. -/
lemma setVariableNumber_ok (u : ASDU) (n : Nat) (u' : ASDU)
    (h : u.SetVariableNumber n = .ok u') :
    u'.infoObj = u.infoObj ∧ u'.params = u.params := by
  unfold ASDU.SetVariableNumber at h
  split_ifs at h <;> injection h with h <;> subst h <;> exact ⟨rfl, rfl⟩

/-- A successful AppendInfoObjAddr appends exactly the encoded address. -/
lemma appendIOA_ok_eq (u : ASDU) (addr : Nat) (u' : ASDU)
    (h : u.AppendInfoObjAddr addr = .ok u') :
    u' = u.AppendBytes (ioaBytes u.params.InfoObjAddrSize addr) := by
  unfold ASDU.AppendInfoObjAddr at h
  split_ifs at h <;> injection h with h <;> subst h <;> simp_all [ioaBytes]

/-- The sequence-mode tail of the `single` encoder loop for [M_SP_NA_1]
(once = true): no further addresses are appended, only one value/quality
octet per object. -/
lemma singleLoop_seq_tail (rest : List SinglePointInfo) :
    ∀ (u u' : ASDU), singleLoop M_SP_NA_1 true rest true u = .ok u' →
    u'.infoObj = u.infoObj ++ rest.map
      (fun x => (if x.Value then 1 else 0) ||| (x.Qds &&& 0xf0)) := by
  induction rest with
  | nil =>
    intro u u' h
    injection h with h
    subst h
    simp
  | cons v vs ih =>
    intro u u' h
    simp only [singleLoop, not_true_eq_false, or_self, if_false, M_SP_NA_1,
      if_true] at h
    have := ih _ _ h
    simp only [this, ASDU.AppendBytes, List.map_cons, List.append_assoc,
      List.singleton_append]

/-- C6: for a sequence-mode [M_SP_NA_1] ASDU whose payload is an encoded
first address `a` followed by N value octets, GetSinglePoint yields
exactly N records with addresses a, a+1, ..., a+N-1 in order; and the
matching encoder `single` in sequence mode writes the information-object
address exactly once, followed by the N object octets with no further
addresses. -/
theorem singlePoint_sequence_ioa (p : Params) (coa : CauseOfTransmission)
    (oa ca a N : Nat) (body : List Nat) (v : SinglePointInfo)
    (infos : List SinglePointInfo)
    (hw : p.InfoObjAddrSize = 1 ∨ p.InfoObjAddrSize = 2 ∨
      p.InfoObjAddrSize = 3)
    (ha : a < 256 ^ p.InfoObjAddrSize) (hN : N ≤ body.length) :
    (∃ l, GetSinglePoint ⟨p, ⟨M_SP_NA_1, ⟨N, true⟩, coa, oa, ca⟩,
        ioaBytes p.InfoObjAddrSize a ++ body⟩ = some l ∧
      l.map (fun r => r.Ioa) = List.range' a N ∧ l.length = N) ∧
    (∀ u, single p M_SP_NA_1 true coa ca (v :: infos) = .ok u →
      u.infoObj = ioaBytes p.InfoObjAddrSize v.Ioa ++
        (v :: infos).map
          (fun x => (if x.Value then 1 else 0) ||| (x.Qds &&& 0xf0))) := by
  constructor
  · rcases N with _ | m
    · exact ⟨[], rfl, rfl, rfl⟩
    · rcases body with _ | ⟨b, rest⟩
      · simp at hN
      · obtain ⟨l, hl, hmap, hlen⟩ :=
          getSinglePointLoop_seq_tail p m a rest (by simpa using hN)
        refine ⟨⟨a, b &&& 0x01 = 0x01, b &&& 0xf0, Tm.zero⟩ :: l,
          ?_, ?_, by simp [hlen]⟩
        · show getSinglePointLoop p M_SP_NA_1 true (m + 1) false 0
            (ioaBytes p.InfoObjAddrSize a ++ (b :: rest)) = _
          simp [getSinglePointLoop, decode_ioaBytes _ _ _ hw ha,
            DecodeByte, hl]
        · simp only [List.map_cons, hmap, List.range'_succ]
  · intro u hu
    unfold single at hu
    split at hu
    · exact absurd hu (by simp)
    split at hu
    · exact absurd hu (by simp)
    rename_i u0 hs
    have h0 := setVariableNumber_ok _ _ _ hs
    simp only [singleLoop, not_false_eq_true, or_true, if_true] at hu
    split at hu
    · exact absurd hu (by simp)
    rename_i u1 hr
    have h1 := appendIOA_ok_eq _ _ _ hr
    have h2 := singleLoop_seq_tail infos _ _ hu
    simp only [h2, h1, ASDU.AppendBytes, h0.1, h0.2, NewASDU,
      List.map_cons, List.nil_append, List.append_assoc,
      List.singleton_append]

/-- Witness for C6: width 1, first address 100, two objects. -/
theorem singlePoint_sequence_ioa_witness :
    (∃ l, GetSinglePoint ⟨⟨1, 1, 1⟩, ⟨M_SP_NA_1, ⟨2, true⟩,
        ⟨false, false, Spontaneous⟩, 0, 1⟩, [100, 1, 0]⟩ = some l ∧
      l.map (fun r => r.Ioa) = [100, 101] ∧ l.length = 2) ∧
    (∀ u, single ⟨1, 1, 1⟩ M_SP_NA_1 true ⟨false, false, Spontaneous⟩ 1
        [⟨100, true, 0, Tm.zero⟩, ⟨0, false, 0, Tm.zero⟩] = .ok u →
      u.infoObj = [100, 1, 0]) := by
  have h := singlePoint_sequence_ioa ⟨1, 1, 1⟩ ⟨false, false, Spontaneous⟩
    0 1 100 2 [1, 0] ⟨100, true, 0, Tm.zero⟩ [⟨0, false, 0, Tm.zero⟩]
    (by decide) (by decide) (by decide)
  constructor
  · obtain ⟨l, hl, hmap, hlen⟩ := h.1
    exact ⟨l, hl, by simpa using hmap, hlen⟩
  · intro u hu
    simpa using h.2 u hu

/-- `n &&& 3 = n % 4`. -/
lemma and_three_is_mod (n : Nat) : n &&& 3 = n % 4 := by
  simpa using Nat.and_pow_two_sub_one_eq_mod n 2

/-- C9: parse is total on any slice of length at least six and never
errors: even ctl1 is an I-frame with the specified sequence-number
recombination, `ctl1 & 3 = 1` is an S-frame, everything else a U-frame
whose function field is `ctl1 & 0xfc` (whether or not that is one of the
six defined U functions), and the result ignores the start and length
octets entirely. -/
theorem parse_total_classification (b0 b1 b0' b1' c1 c2 c3 c4 : Nat)
    (rest : List Nat) :
    (∃ fr, parse (b0 :: b1 :: c1 :: c2 :: c3 :: c4 :: rest) =
        some (fr, rest)) ∧
    (c1 &&& 0x01 = 0 →
      parse (b0 :: b1 :: c1 :: c2 :: c3 :: c4 :: rest) =
        some (.iAPCI (((c1 >>> 1) + (c2 <<< 7) % 65536) % 65536)
                     (((c3 >>> 1) + (c4 <<< 7) % 65536) % 65536), rest)) ∧
    (c1 &&& 0x03 = 0x01 →
      parse (b0 :: b1 :: c1 :: c2 :: c3 :: c4 :: rest) =
        some (.sAPCI (((c3 >>> 1) + (c4 <<< 7) % 65536) % 65536), rest)) ∧
    (c1 &&& 0x01 ≠ 0 → c1 &&& 0x03 ≠ 0x01 →
      parse (b0 :: b1 :: c1 :: c2 :: c3 :: c4 :: rest) =
        some (.uAPCI (c1 &&& 0xfc), rest)) ∧
    parse (b0 :: b1 :: c1 :: c2 :: c3 :: c4 :: rest) =
      parse (b0' :: b1' :: c1 :: c2 :: c3 :: c4 :: rest) := by
  refine ⟨?_, ?_, ?_, ?_, rfl⟩
  · simp only [parse]
    split_ifs <;> exact ⟨_, rfl⟩
  · intro h1
    simp only [parse, h1, if_true]
  · intro h3
    have h1 : ¬ c1 &&& 0x01 = 0 := by
      rw [Nat.and_one_is_mod]
      rw [and_three_is_mod] at h3
      omega
    simp only [parse, h1, h3, if_false, if_true]
  · intro h1 h3
    simp only [parse, h1, h3, if_false]

/-- Characterisation of the t0 block of Config.Valid. -/
lemma validT0_spec (c d : Config) :
    c.validT0 = .ok d ↔
      ((c.ConnectTimeout0 = 0 ∨ (ConnectTimeout0Min ≤ c.ConnectTimeout0 ∧
          c.ConnectTimeout0 ≤ ConnectTimeout0Max)) ∧
        d = { c with ConnectTimeout0 :=
          if c.ConnectTimeout0 = 0 then 30 * second
          else c.ConnectTimeout0 }) := by
  unfold Config.validT0
  split_ifs with h1 h2
  · simp [h1, eq_comm]
  · constructor
    · intro h
      exact absurd h (by simp)
    · rintro ⟨hc, _⟩
      rcases hc with hc | hc
      · exact absurd hc h1
      · exfalso
        simp only [ConnectTimeout0Min, ConnectTimeout0Max, second] at hc h2
        rcases h2 with h2 | h2 <;> omega
  · constructor
    · intro h
      injection h with h
      subst h
      refine ⟨Or.inr ?_, by simp [h1]⟩
      simp only [ConnectTimeout0Min, ConnectTimeout0Max, second] at h2 ⊢
      omega
    · rintro ⟨_, hd⟩
      subst hd
      simp [h1]

/-- Characterisation of the k block of Config.Valid. -/
lemma validK_spec (c d : Config) :
    c.validK = .ok d ↔
      ((c.SendUnAckLimitK = 0 ∨ (SendUnAckLimitKMin ≤ c.SendUnAckLimitK ∧
          c.SendUnAckLimitK ≤ SendUnAckLimitKMax)) ∧
        d = { c with SendUnAckLimitK :=
          if c.SendUnAckLimitK = 0 then 12 else c.SendUnAckLimitK }) := by
  unfold Config.validK
  split_ifs with h1 h2
  · simp [h1, eq_comm]
  · constructor
    · intro h
      exact absurd h (by simp)
    · rintro ⟨hc, _⟩
      rcases hc with hc | hc
      · exact absurd hc h1
      · exfalso
        simp only [SendUnAckLimitKMin, SendUnAckLimitKMax] at hc h2
        rcases h2 with h2 | h2 <;> omega
  · constructor
    · intro h
      injection h with h
      subst h
      refine ⟨Or.inr ?_, by simp [h1]⟩
      simp only [SendUnAckLimitKMin, SendUnAckLimitKMax] at h2 ⊢
      omega
    · rintro ⟨_, hd⟩
      subst hd
      simp [h1]

/-- Characterisation of the t1 block of Config.Valid. -/
lemma validT1_spec (c d : Config) :
    c.validT1 = .ok d ↔
      ((c.SendUnAckTimeout1 = 0 ∨ (SendUnAckTimeout1Min ≤ c.SendUnAckTimeout1 ∧
          c.SendUnAckTimeout1 ≤ SendUnAckTimeout1Max)) ∧
        d = { c with SendUnAckTimeout1 :=
          if c.SendUnAckTimeout1 = 0 then 15 * second
          else c.SendUnAckTimeout1 }) := by
  unfold Config.validT1
  split_ifs with h1 h2
  · simp [h1, eq_comm]
  · constructor
    · intro h
      exact absurd h (by simp)
    · rintro ⟨hc, _⟩
      rcases hc with hc | hc
      · exact absurd hc h1
      · exfalso
        simp only [SendUnAckTimeout1Min, SendUnAckTimeout1Max, second] at hc h2
        rcases h2 with h2 | h2 <;> omega
  · constructor
    · intro h
      injection h with h
      subst h
      refine ⟨Or.inr ?_, by simp [h1]⟩
      simp only [SendUnAckTimeout1Min, SendUnAckTimeout1Max, second] at h2 ⊢
      omega
    · rintro ⟨_, hd⟩
      subst hd
      simp [h1]

/-- Characterisation of the w block of Config.Valid. -/
lemma validW_spec (c d : Config) :
    c.validW = .ok d ↔
      ((c.RecvUnAckLimitW = 0 ∨ (RecvUnAckLimitWMin ≤ c.RecvUnAckLimitW ∧
          c.RecvUnAckLimitW ≤ RecvUnAckLimitWMax)) ∧
        d = { c with RecvUnAckLimitW :=
          if c.RecvUnAckLimitW = 0 then 8 else c.RecvUnAckLimitW }) := by
  unfold Config.validW
  split_ifs with h1 h2
  · simp [h1, eq_comm]
  · constructor
    · intro h
      exact absurd h (by simp)
    · rintro ⟨hc, _⟩
      rcases hc with hc | hc
      · exact absurd hc h1
      · exfalso
        simp only [RecvUnAckLimitWMin, RecvUnAckLimitWMax] at hc h2
        rcases h2 with h2 | h2 <;> omega
  · constructor
    · intro h
      injection h with h
      subst h
      refine ⟨Or.inr ?_, by simp [h1]⟩
      simp only [RecvUnAckLimitWMin, RecvUnAckLimitWMax] at h2 ⊢
      omega
    · rintro ⟨_, hd⟩
      subst hd
      simp [h1]

/-- Characterisation of the t2 block of Config.Valid. -/
lemma validT2_spec (c d : Config) :
    c.validT2 = .ok d ↔
      ((c.RecvUnAckTimeout2 = 0 ∨ (RecvUnAckTimeout2Min ≤ c.RecvUnAckTimeout2 ∧
          c.RecvUnAckTimeout2 ≤ RecvUnAckTimeout2Max)) ∧
        d = { c with RecvUnAckTimeout2 :=
          if c.RecvUnAckTimeout2 = 0 then 10 * second
          else c.RecvUnAckTimeout2 }) := by
  unfold Config.validT2
  split_ifs with h1 h2
  · simp [h1, eq_comm]
  · constructor
    · intro h
      exact absurd h (by simp)
    · rintro ⟨hc, _⟩
      rcases hc with hc | hc
      · exact absurd hc h1
      · exfalso
        simp only [RecvUnAckTimeout2Min, RecvUnAckTimeout2Max, second] at hc h2
        rcases h2 with h2 | h2 <;> omega
  · constructor
    · intro h
      injection h with h
      subst h
      refine ⟨Or.inr ?_, by simp [h1]⟩
      simp only [RecvUnAckTimeout2Min, RecvUnAckTimeout2Max, second] at h2 ⊢
      omega
    · rintro ⟨_, hd⟩
      subst hd
      simp [h1]

/-- Characterisation of the t3 block of Config.Valid. -/
lemma validT3_spec (c d : Config) :
    c.validT3 = .ok d ↔
      ((c.IdleTimeout3 = 0 ∨ (IdleTimeout3Min ≤ c.IdleTimeout3 ∧
          c.IdleTimeout3 ≤ IdleTimeout3Max)) ∧
        d = { c with IdleTimeout3 :=
          if c.IdleTimeout3 = 0 then 20 * second else c.IdleTimeout3 }) := by
  unfold Config.validT3
  split_ifs with h1 h2
  · simp [h1, eq_comm]
  · constructor
    · intro h
      exact absurd h (by simp)
    · rintro ⟨hc, _⟩
      rcases hc with hc | hc
      · exact absurd hc h1
      · exfalso
        simp only [IdleTimeout3Min, IdleTimeout3Max, second, hour] at hc h2
        rcases h2 with h2 | h2 <;> omega
  · constructor
    · intro h
      injection h with h
      subst h
      refine ⟨Or.inr ?_, by simp [h1]⟩
      simp only [IdleTimeout3Min, IdleTimeout3Max, second, hour] at h2 ⊢
      omega
    · rintro ⟨_, hd⟩
      subst hd
      simp [h1]

/-- Config.Valid succeeds exactly when every field is zero or in range,
and then the result replaces each zero field with its default. -/
lemma config_valid_ok_iff (c d : Config) :
    c.Valid = .ok d ↔
      (((c.ConnectTimeout0 = 0 ∨ (ConnectTimeout0Min ≤ c.ConnectTimeout0 ∧
          c.ConnectTimeout0 ≤ ConnectTimeout0Max)) ∧
        (c.SendUnAckLimitK = 0 ∨ (SendUnAckLimitKMin ≤ c.SendUnAckLimitK ∧
          c.SendUnAckLimitK ≤ SendUnAckLimitKMax)) ∧
        (c.SendUnAckTimeout1 = 0 ∨ (SendUnAckTimeout1Min ≤ c.SendUnAckTimeout1 ∧
          c.SendUnAckTimeout1 ≤ SendUnAckTimeout1Max)) ∧
        (c.RecvUnAckLimitW = 0 ∨ (RecvUnAckLimitWMin ≤ c.RecvUnAckLimitW ∧
          c.RecvUnAckLimitW ≤ RecvUnAckLimitWMax)) ∧
        (c.RecvUnAckTimeout2 = 0 ∨ (RecvUnAckTimeout2Min ≤ c.RecvUnAckTimeout2 ∧
          c.RecvUnAckTimeout2 ≤ RecvUnAckTimeout2Max)) ∧
        (c.IdleTimeout3 = 0 ∨ (IdleTimeout3Min ≤ c.IdleTimeout3 ∧
          c.IdleTimeout3 ≤ IdleTimeout3Max))) ∧
      d = { ConnectTimeout0 := if c.ConnectTimeout0 = 0 then 30 * second
              else c.ConnectTimeout0
            SendUnAckLimitK := if c.SendUnAckLimitK = 0 then 12
              else c.SendUnAckLimitK
            SendUnAckTimeout1 := if c.SendUnAckTimeout1 = 0 then 15 * second
              else c.SendUnAckTimeout1
            RecvUnAckLimitW := if c.RecvUnAckLimitW = 0 then 8
              else c.RecvUnAckLimitW
            RecvUnAckTimeout2 := if c.RecvUnAckTimeout2 = 0 then 10 * second
              else c.RecvUnAckTimeout2
            IdleTimeout3 := if c.IdleTimeout3 = 0 then 20 * second
              else c.IdleTimeout3 }) := by
  constructor
  · intro h
    unfold Config.Valid at h
    split at h
    · exact absurd h (by simp)
    rename_i c1 h0
    split at h
    · exact absurd h (by simp)
    rename_i c2 hK
    split at h
    · exact absurd h (by simp)
    rename_i c3 h1
    split at h
    · exact absurd h (by simp)
    rename_i c4 hW
    split at h
    · exact absurd h (by simp)
    rename_i c5 h2
    split at h
    · exact absurd h (by simp)
    rename_i c6 h3
    injection h with h
    subst h
    obtain ⟨k0, e0⟩ := (validT0_spec c c1).mp h0
    subst e0
    obtain ⟨kK, eK⟩ := (validK_spec _ c2).mp hK
    subst eK
    obtain ⟨k1, e1⟩ := (validT1_spec _ c3).mp h1
    subst e1
    obtain ⟨kW, eW⟩ := (validW_spec _ c4).mp hW
    subst eW
    obtain ⟨k2, e2⟩ := (validT2_spec _ c5).mp h2
    subst e2
    obtain ⟨k3, e3⟩ := (validT3_spec _ c6).mp h3
    subst e3
    exact ⟨⟨k0, kK, k1, kW, k2, k3⟩, rfl⟩
  · rintro ⟨⟨k0, kK, k1, kW, k2, k3⟩, hd⟩
    subst hd
    unfold Config.Valid
    have e0 := (validT0_spec c _).mpr ⟨k0, rfl⟩
    have eK := (validK_spec
      ⟨if c.ConnectTimeout0 = 0 then 30 * second else c.ConnectTimeout0,
       c.SendUnAckLimitK, c.SendUnAckTimeout1, c.RecvUnAckLimitW,
       c.RecvUnAckTimeout2, c.IdleTimeout3⟩ _).mpr ⟨kK, rfl⟩
    have e1 := (validT1_spec
      ⟨if c.ConnectTimeout0 = 0 then 30 * second else c.ConnectTimeout0,
       if c.SendUnAckLimitK = 0 then 12 else c.SendUnAckLimitK,
       c.SendUnAckTimeout1, c.RecvUnAckLimitW,
       c.RecvUnAckTimeout2, c.IdleTimeout3⟩ _).mpr ⟨k1, rfl⟩
    have eW := (validW_spec
      ⟨if c.ConnectTimeout0 = 0 then 30 * second else c.ConnectTimeout0,
       if c.SendUnAckLimitK = 0 then 12 else c.SendUnAckLimitK,
       if c.SendUnAckTimeout1 = 0 then 15 * second else c.SendUnAckTimeout1,
       c.RecvUnAckLimitW, c.RecvUnAckTimeout2, c.IdleTimeout3⟩ _).mpr
      ⟨kW, rfl⟩
    have e2 := (validT2_spec
      ⟨if c.ConnectTimeout0 = 0 then 30 * second else c.ConnectTimeout0,
       if c.SendUnAckLimitK = 0 then 12 else c.SendUnAckLimitK,
       if c.SendUnAckTimeout1 = 0 then 15 * second else c.SendUnAckTimeout1,
       if c.RecvUnAckLimitW = 0 then 8 else c.RecvUnAckLimitW,
       c.RecvUnAckTimeout2, c.IdleTimeout3⟩ _).mpr ⟨k2, rfl⟩
    have e3 := (validT3_spec
      ⟨if c.ConnectTimeout0 = 0 then 30 * second else c.ConnectTimeout0,
       if c.SendUnAckLimitK = 0 then 12 else c.SendUnAckLimitK,
       if c.SendUnAckTimeout1 = 0 then 15 * second else c.SendUnAckTimeout1,
       if c.RecvUnAckLimitW = 0 then 8 else c.RecvUnAckLimitW,
       if c.RecvUnAckTimeout2 = 0 then 10 * second else c.RecvUnAckTimeout2,
       c.IdleTimeout3⟩ _).mpr ⟨k3, rfl⟩
    simp only [e0, eK, e1, eW, e2, e3]

/-- C8: Config.Valid replaces each zero field with its IEC default (t0 =
30s, k = 12, t1 = 15s, w = 8, t2 = 10s, t3 = 20s) and errors exactly when
some nonzero field lies outside its range (t0, t1, t2 in [1,255] seconds,
k and w in [1,32767], t3 in [1 second, 48 hours]); after success every
field is in range. -/
theorem config_valid_spec (c : Config) :
    ((∃ d, c.Valid = .ok d) ↔
      ((c.ConnectTimeout0 = 0 ∨ (ConnectTimeout0Min ≤ c.ConnectTimeout0 ∧
          c.ConnectTimeout0 ≤ ConnectTimeout0Max)) ∧
       (c.SendUnAckLimitK = 0 ∨ (SendUnAckLimitKMin ≤ c.SendUnAckLimitK ∧
          c.SendUnAckLimitK ≤ SendUnAckLimitKMax)) ∧
       (c.SendUnAckTimeout1 = 0 ∨ (SendUnAckTimeout1Min ≤ c.SendUnAckTimeout1 ∧
          c.SendUnAckTimeout1 ≤ SendUnAckTimeout1Max)) ∧
       (c.RecvUnAckLimitW = 0 ∨ (RecvUnAckLimitWMin ≤ c.RecvUnAckLimitW ∧
          c.RecvUnAckLimitW ≤ RecvUnAckLimitWMax)) ∧
       (c.RecvUnAckTimeout2 = 0 ∨ (RecvUnAckTimeout2Min ≤ c.RecvUnAckTimeout2 ∧
          c.RecvUnAckTimeout2 ≤ RecvUnAckTimeout2Max)) ∧
       (c.IdleTimeout3 = 0 ∨ (IdleTimeout3Min ≤ c.IdleTimeout3 ∧
          c.IdleTimeout3 ≤ IdleTimeout3Max)))) ∧
    (∀ d, c.Valid = .ok d →
      d = { ConnectTimeout0 := if c.ConnectTimeout0 = 0 then 30 * second
              else c.ConnectTimeout0
            SendUnAckLimitK := if c.SendUnAckLimitK = 0 then 12
              else c.SendUnAckLimitK
            SendUnAckTimeout1 := if c.SendUnAckTimeout1 = 0 then 15 * second
              else c.SendUnAckTimeout1
            RecvUnAckLimitW := if c.RecvUnAckLimitW = 0 then 8
              else c.RecvUnAckLimitW
            RecvUnAckTimeout2 := if c.RecvUnAckTimeout2 = 0 then 10 * second
              else c.RecvUnAckTimeout2
            IdleTimeout3 := if c.IdleTimeout3 = 0 then 20 * second
              else c.IdleTimeout3 } ∧
      (ConnectTimeout0Min ≤ d.ConnectTimeout0 ∧
        d.ConnectTimeout0 ≤ ConnectTimeout0Max) ∧
      (SendUnAckLimitKMin ≤ d.SendUnAckLimitK ∧
        d.SendUnAckLimitK ≤ SendUnAckLimitKMax) ∧
      (SendUnAckTimeout1Min ≤ d.SendUnAckTimeout1 ∧
        d.SendUnAckTimeout1 ≤ SendUnAckTimeout1Max) ∧
      (RecvUnAckLimitWMin ≤ d.RecvUnAckLimitW ∧
        d.RecvUnAckLimitW ≤ RecvUnAckLimitWMax) ∧
      (RecvUnAckTimeout2Min ≤ d.RecvUnAckTimeout2 ∧
        d.RecvUnAckTimeout2 ≤ RecvUnAckTimeout2Max) ∧
      (IdleTimeout3Min ≤ d.IdleTimeout3 ∧
        d.IdleTimeout3 ≤ IdleTimeout3Max)) := by
  constructor
  · constructor
    · rintro ⟨d, hd⟩
      exact ((config_valid_ok_iff c d).mp hd).1
    · intro hconds
      exact ⟨_, (config_valid_ok_iff c _).mpr ⟨hconds, rfl⟩⟩
  · intro d hd
    obtain ⟨⟨k0, kK, k1, kW, k2, k3⟩, hshape⟩ := (config_valid_ok_iff c d).mp hd
    subst hshape
    refine ⟨rfl, ?_, ?_, ?_, ?_, ?_, ?_⟩
    · show ConnectTimeout0Min ≤ (if c.ConnectTimeout0 = 0 then 30 * second
        else c.ConnectTimeout0) ∧ _
      rcases k0 with h | h
      · norm_num [h, ConnectTimeout0Min, ConnectTimeout0Max, second]
      · have hne : ¬ c.ConnectTimeout0 = 0 := by
          simp only [ConnectTimeout0Min, second] at h
          omega
        simpa [hne] using h
    · show SendUnAckLimitKMin ≤ (if c.SendUnAckLimitK = 0 then 12
        else c.SendUnAckLimitK) ∧ _
      rcases kK with h | h
      · norm_num [h, SendUnAckLimitKMin, SendUnAckLimitKMax]
      · have hne : ¬ c.SendUnAckLimitK = 0 := by
          simp only [SendUnAckLimitKMin] at h
          omega
        simpa [hne] using h
    · show SendUnAckTimeout1Min ≤ (if c.SendUnAckTimeout1 = 0 then 15 * second
        else c.SendUnAckTimeout1) ∧ _
      rcases k1 with h | h
      · norm_num [h, SendUnAckTimeout1Min, SendUnAckTimeout1Max, second]
      · have hne : ¬ c.SendUnAckTimeout1 = 0 := by
          simp only [SendUnAckTimeout1Min, second] at h
          omega
        simpa [hne] using h
    · show RecvUnAckLimitWMin ≤ (if c.RecvUnAckLimitW = 0 then 8
        else c.RecvUnAckLimitW) ∧ _
      rcases kW with h | h
      · norm_num [h, RecvUnAckLimitWMin, RecvUnAckLimitWMax]
      · have hne : ¬ c.RecvUnAckLimitW = 0 := by
          simp only [RecvUnAckLimitWMin] at h
          omega
        simpa [hne] using h
    · show RecvUnAckTimeout2Min ≤ (if c.RecvUnAckTimeout2 = 0 then 10 * second
        else c.RecvUnAckTimeout2) ∧ _
      rcases k2 with h | h
      · norm_num [h, RecvUnAckTimeout2Min, RecvUnAckTimeout2Max, second]
      · have hne : ¬ c.RecvUnAckTimeout2 = 0 := by
          simp only [RecvUnAckTimeout2Min, second] at h
          omega
        simpa [hne] using h
    · show IdleTimeout3Min ≤ (if c.IdleTimeout3 = 0 then 20 * second
        else c.IdleTimeout3) ∧ _
      rcases k3 with h | h
      · norm_num [h, IdleTimeout3Min, IdleTimeout3Max, second, hour]
      · have hne : ¬ c.IdleTimeout3 = 0 := by
          simp only [IdleTimeout3Min, second] at h
          omega
        simpa [hne] using h

/-- Witness for C8: the all-zero Config validates to the IEC defaults, and
a Config with w = 40000 (nonzero, above 32767) is rejected. -/
theorem config_valid_spec_witness :
    (∃ d, Config.Valid ⟨0, 0, 0, 0, 0, 0⟩ = .ok d ∧
      d = ⟨30 * second, 12, 15 * second, 8, 10 * second, 20 * second⟩) ∧
    ¬∃ d, Config.Valid ⟨0, 0, 0, 40000, 0, 0⟩ = .ok d := by
  constructor
  · obtain ⟨d, hd⟩ := ((config_valid_spec ⟨0, 0, 0, 0, 0, 0⟩).1).mpr
      (by simp)
    exact ⟨d, hd, by simpa using ((config_valid_spec ⟨0, 0, 0, 0, 0, 0⟩).2
      d hd).1⟩
  · intro hex
    have := ((config_valid_spec ⟨0, 0, 0, 40000, 0, 0⟩).1).mp hex
    simp [RecvUnAckLimitWMin, RecvUnAckLimitWMax] at this

/-- Witness for C9 at ctl1 = 0xFF: classified as a U-frame with function
0xFC, which is none of the six defined U functions, and the start/length
octets 0x99/0x00 are not inspected. -/
theorem parse_total_classification_witness :
    ((0xFF : Nat) &&& 0x01 ≠ 0 ∧ (0xFF : Nat) &&& 0x03 ≠ 0x01) ∧
    parse [0x99, 0, 0xFF, 2, 3, 4, 5] = some (.uAPCI 0xFC, [5]) ∧
    (0xFC : Nat) ∉ [uStartDtActive, uStartDtConfirm, uStopDtActive,
      uStopDtConfirm, uTestFrActive, uTestFrConfirm] := by
  refine ⟨by decide, ?_, by decide⟩
  exact (parse_total_classification 0x99 0 0 0 0xFF 2 3 4 [5]).2.2.2.1
    (by decide) (by decide)

end Iecp5
